import Mathlib

/-!
# Verification of the language-rotation coding game (Rust TUI)

Shallow embedding of the session state machine and the execution/translation
pipeline of the repository (src/app.rs, src/problem.rs, src/llm.rs,
src/languages.rs), together with theorems settling the frozen claims.

Modelling conventions:
* `Instant`/`Duration` values are rationals (seconds); `Instant::now()` inside a
  method becomes an explicit `now : ℚ` argument.  `Instant::elapsed` and
  `Duration::saturating_sub` are modelled with truncation at zero.
* `f32` progress scalars are modelled as rationals (the code only adds the
  literal constants 0.025, 0.01, 0.035, 0.005 and compares against 0.3, 0.95,
  1.0; no claim depends on binary rounding of those constants).
* `rand::thread_rng` draws are passed in as explicit arguments (the drawn value).
* tokio channels are modelled by job identities: a receiver is an optional job
  record, and delivering an event names the job id it comes from; a message on
  a dropped receiver is never seen, exactly as in the code.
-/

namespace Babel

/-- The twelve languages of `src/languages.rs` (`enum Language`). -/
inductive Language where
  | JavaScript | TypeScript | Python | Rust | Go | Java
  | Haskell | Lua | OCaml | Elixir | Kotlin | Swift
deriving DecidableEq, Repr

/-- Port of `Language::all()` from src/languages.rs. -/
def Language.all : List Language :=
  [.JavaScript, .TypeScript, .Python, .Rust, .Go, .Java,
   .Haskell, .Lua, .OCaml, .Elixir, .Kotlin, .Swift]

/-- The candidate list built inside `Language::random_except`
(`Language::all()` filtered to exclude `self`). -/
def Language.randomExceptCandidates (l : Language) : List Language :=
  Language.all.filter (fun x => x != l)

/-- Port of `Language::random_except` from src/languages.rs.  The uniform draw
`others.choose(&mut rng)` is modelled by the explicit argument `choice`
(faithful runs supply `choice ∈ randomExceptCandidates l`). -/
def Language.random_except (l : Language) (choice : Language) : Language :=
  let others := Language.randomExceptCandidates l
  if others.isEmpty then Language.all.headD l else choice

/-- Port of `display_name` from src/languages.rs. -/
def Language.display_name : Language → String
  | .JavaScript => "JavaScript"
  | .TypeScript => "TypeScript"
  | .Python => "Python"
  | .Rust => "Rust"
  | .Go => "Go"
  | .Java => "Java"
  | .Haskell => "Haskell"
  | .Lua => "Lua"
  | .OCaml => "OCaml"
  | .Elixir => "Elixir"
  | .Kotlin => "Kotlin"
  | .Swift => "Swift"

/-- Port of `struct TestCase` from src/problem.rs. -/
structure TestCase where
  input : List String
  expected : String
deriving DecidableEq, Repr

/-- A function parameter of a problem.  Modelled from the spec: the snapshot of
src/problem.rs lacks the `parameters` field that src/app.rs reads
(`p.name`, `p.param_type`); the spec only mentions "type-signature hints", so
the field is modelled as a name/type pair of strings. -/
structure Param where
  name : String
  param_type : String
deriving DecidableEq, Repr

/-- Port of `struct Problem` from src/problem.rs, extended with the `parameters` and
`return_type` fields that src/app.rs uses but that are missing from the
problem.rs snapshot (modelled from the spec as plain data). -/
structure Problem where
  id : Nat
  title : String
  description : String
  examples : List String
  constraints : List String
  test_cases : List TestCase
  function_name : String
  parameters : List Param
  return_type : String
deriving DecidableEq, Repr

/-- Modelled from the spec: `Problem::type_signature` is called by
`App::start_llm_translation` but missing from the src/problem.rs snapshot; the
spec says translation uses "type-signature hints when available", so it is
modelled as an opaque-to-the-claims string built from the declared parameter
types and return type. -/
def Problem.type_signature (p : Problem) : String :=
  p.function_name ++ "(" ++
    String.intercalate ", " (p.parameters.map (fun q => q.name ++ ": " ++ q.param_type)) ++
    ") -> " ++ p.return_type

/-- Port of `struct TestResult` from src/problem.rs. -/
structure TestResult where
  case_number : Nat
  passed : Bool
  input : String
  expected : String
  actual : String
deriving DecidableEq, Repr

/-- Port of `struct TestResults` from src/problem.rs (the execution `Report`). -/
structure TestResults where
  total : Nat
  passed : Nat
  failed : Nat
  details : List TestResult
deriving DecidableEq, Repr

/-! ## A model of `serde_json::Value` and `serde_json::from_str::<Vec<Value>>` -/

/-- JSON values (model of `serde_json::Value`; numbers keep their source
text, which is all `parse_results` ever needs). -/
inductive Json where
  | null
  | bool (b : Bool)
  | num (text : String)
  | str (s : String)
  | arr (elems : List Json)
  | obj (fields : List (String × Json))

/-- Port of `Value::get(key)` on an object (later duplicate keys shadow earlier ones,
matching serde_json's map insertion; `None` off objects). -/
def Json.getField : Json → String → Option Json
  | .obj fields, key =>
      (fields.reverse.find? (fun kv => kv.1 == key)).map (fun kv => kv.2)
  | _, _ => none

/-- Port of `Value::as_bool`. -/
def Json.asBool : Json → Option Bool
  | .bool b => some b
  | _ => none

/-- Port of `Value::as_str`. -/
def Json.asStr : Json → Option String
  | .str s => some s
  | _ => none

/-- JSON whitespace skipping. -/
def skipWs : List Char → List Char
  | [] => []
  | c :: rest => if c = ' ' ∨ c = '\t' ∨ c = '\n' ∨ c = '\r' then skipWs rest else c :: rest

/-- Hexadecimal digit test for JSON `\u` escapes. -/
def isHexDigitChar (c : Char) : Bool :=
  c.isDigit || ('a' ≤ c && c ≤ 'f') || ('A' ≤ c && c ≤ 'F')

/-- Value of a hexadecimal digit. -/
def hexVal (c : Char) : Nat :=
  if c.isDigit then c.toNat - '0'.toNat
  else if 'a' ≤ c ∧ c ≤ 'f' then c.toNat - 'a'.toNat + 10
  else if 'A' ≤ c ∧ c ≤ 'F' then c.toNat - 'A'.toNat + 10
  else 0

/-- Parse the body of a JSON string literal (after the opening quote). -/
def parseStringBody (acc : List Char) : List Char → Option (String × List Char)
  | '"' :: rest => some (String.mk acc.reverse, rest)
  | '\\' :: e :: rest =>
      match e with
      | '"' => parseStringBody ('"' :: acc) rest
      | '\\' => parseStringBody ('\\' :: acc) rest
      | '/' => parseStringBody ('/' :: acc) rest
      | 'b' => parseStringBody ('\x08' :: acc) rest
      | 'f' => parseStringBody ('\x0c' :: acc) rest
      | 'n' => parseStringBody ('\n' :: acc) rest
      | 'r' => parseStringBody ('\r' :: acc) rest
      | 't' => parseStringBody ('\t' :: acc) rest
      | 'u' =>
          match rest with
          | h1 :: h2 :: h3 :: h4 :: rest2 =>
              if isHexDigitChar h1 ∧ isHexDigitChar h2 ∧ isHexDigitChar h3 ∧ isHexDigitChar h4 then
                let v := 4096 * hexVal h1 + 256 * hexVal h2 + 16 * hexVal h3 + hexVal h4
                parseStringBody (Char.ofNat v :: acc) rest2
              else none
          | _ => none
      | _ => none
  | ['\\'] => none
  | c :: rest => parseStringBody (c :: acc) rest
  | [] => none

/-- Characters that may appear in a JSON number literal. -/
def isNumChar (c : Char) : Bool :=
  c.isDigit || c == '-' || c == '+' || c == '.' || c == 'e' || c == 'E'

/-- Parse a JSON number literal as raw text. -/
def parseNumberText (cs : List Char) : Option (String × List Char) :=
  let digits := cs.takeWhile isNumChar
  if digits.isEmpty then none else some (String.mk digits, cs.drop digits.length)

mutual

/-- Fuel-based parser for a single JSON value (model of serde_json's grammar:
leading whitespace allowed, `null`/`true`/`false`, strings, numbers, arrays,
objects). -/
def parseJson : Nat → List Char → Option (Json × List Char)
  | 0, _ => none
  | fuel + 1, cs =>
      match skipWs cs with
      | 'n' :: 'u' :: 'l' :: 'l' :: rest => some (.null, rest)
      | 't' :: 'r' :: 'u' :: 'e' :: rest => some (.bool true, rest)
      | 'f' :: 'a' :: 'l' :: 's' :: 'e' :: rest => some (.bool false, rest)
      | '"' :: rest => (parseStringBody [] rest).map (fun sr => (.str sr.1, sr.2))
      | '[' :: rest =>
          (match skipWs rest with
           | ']' :: rest2 => some (.arr [], rest2)
           | other => (parseArrayItems fuel other).map (fun xr => (.arr xr.1, xr.2)))
      | '\x7b' :: rest =>
          (match skipWs rest with
           | '\x7d' :: rest2 => some (.obj [], rest2)
           | other => (parseObjItems fuel other).map (fun xr => (.obj xr.1, xr.2)))
      | other =>
          match other with
          | c :: _ =>
              if c.isDigit ∨ c = '-' then
                (parseNumberText other).map (fun nr => (.num nr.1, nr.2))
              else none
          | [] => none

/-- Comma-separated JSON array elements up to the closing bracket. -/
def parseArrayItems : Nat → List Char → Option (List Json × List Char)
  | 0, _ => none
  | fuel + 1, cs => do
      let (v, rest) ← parseJson fuel cs
      match skipWs rest with
      | ',' :: rest2 => do
          let (vs, rest3) ← parseArrayItems fuel rest2
          pure (v :: vs, rest3)
      | ']' :: rest2 => pure ([v], rest2)
      | _ => none

/-- Comma-separated JSON object members up to the closing brace. -/
def parseObjItems : Nat → List Char → Option (List (String × Json) × List Char)
  | 0, _ => none
  | fuel + 1, cs => do
      match skipWs cs with
      | '"' :: rest => do
          let (key, rest1) ← parseStringBody [] rest
          match skipWs rest1 with
          | ':' :: rest2 => do
              let (v, rest3) ← parseJson fuel rest2
              match skipWs rest3 with
              | ',' :: rest4 => do
                  let (vs, rest5) ← parseObjItems fuel rest4
                  pure ((key, v) :: vs, rest5)
              | '\x7d' :: rest4 => pure ([(key, v)], rest4)
              | _ => none
          | _ => none
      | _ => none

end

/-- Port of `serde_json::from_str::<Vec<serde_json::Value>>`: the whole input must be
one JSON array (surrounding whitespace allowed). -/
def jsonFromStrVec (s : String) : Option (List Json) :=
  match parseJson (s.length + 1) s.data with
  | some (.arr xs, rest) => if skipWs rest = [] then some xs else none
  | _ => none

/-- Splitting a character list at newline characters (all pieces kept, so the
result is never empty). -/
def splitNewlineAux (cur : List Char) : List Char → List (List Char)
  | [] => [cur.reverse]
  | c :: rest =>
      if c = '\n' then cur.reverse :: splitNewlineAux [] rest
      else splitNewlineAux (c :: cur) rest

/-- Rust `str::split('\n')` as a list of lines. -/
def splitNewline (s : String) : List String :=
  (splitNewlineAux [] s.data).map String.mk

/-- Rust `str::lines` (split at newlines, final line ending optional, a `\r`
immediately before a split point is stripped). -/
def rustLines (s : String) : List String :=
  let parts := splitNewlineAux [] s.data
  let parts := if parts.getLast? = some [] then parts.dropLast else parts
  parts.map (fun cs => String.mk (if cs.getLast? = some '\r' then cs.dropLast else cs))

/-- Rust `str::trim` (whitespace from both ends). -/
def rustTrim (s : String) : String :=
  String.mk (((s.data.dropWhile Char.isWhitespace).reverse.dropWhile Char.isWhitespace).reverse)

/-- Rust `str::starts_with(c)` for a single character. -/
def strStartsWith (s : String) (c : Char) : Bool :=
  match s.data with
  | x :: _ => x = c
  | [] => false

/-- Port of `create_error_results` from src/problem.rs. -/
def create_error_results (problem : Problem) (error : String) : TestResults :=
  { total := problem.test_cases.length
    passed := 0
    failed := problem.test_cases.length
    details := problem.test_cases.enum.map (fun itc =>
      { case_number := itc.1 + 1
        passed := false
        input := String.intercalate ", " itc.2.input
        expected := itc.2.expected
        actual := error }) }

/-- Port of `parse_results` from src/problem.rs: find the last stdout line that (after
trimming) starts with the array delimiter, parse it as a verdict array, and
pair the problem's test cases positionally with the verdicts. -/
def parse_results (stdout : String) (problem : Problem) : TestResults :=
  let jsonLine := (rustLines stdout).reverse.find? (fun l => strStartsWith (rustTrim l) '[')
  match jsonLine with
  | some line =>
      match jsonFromStrVec line with
      | some jsonResults =>
          let details : List TestResult := problem.test_cases.enum.map (fun itc =>
            let result := jsonResults.get? itc.1
            let passed := ((result.bind (fun r => r.getField "passed")).bind Json.asBool).getD false
            let actual := ((result.bind (fun r => r.getField "actual")).bind Json.asStr).getD "Error"
            { case_number := itc.1 + 1
              passed := passed
              input := String.intercalate ", " itc.2.input
              expected := itc.2.expected
              actual := actual })
          let passedCount := (details.filter (fun r => r.passed)).length
          { total := problem.test_cases.length
            passed := passedCount
            failed := problem.test_cases.length - passedCount
            details := details }
      | none => create_error_results problem "Failed to parse test results from output"
  | none => create_error_results problem "Failed to parse test results from output"

/-- The externally visible outcome of the remote Piston call in
`run_tests_on_piston` (src/problem.rs): non-success HTTP status, network
error, response-parse error, or a successful response carrying stdout. -/
inductive PistonOutcome where
  | httpError (statusText : String)
  | networkError (msg : String)
  | parseError (msg : String)
  | ok (stdout : String)
deriving DecidableEq, Repr

/-- The `TestResults` value produced by `run_tests_on_piston` (src/problem.rs,
lines 447-507) for each possible remote outcome: every failure path calls
`create_error_results` with the formatted reason, the success path hands
stdout to `parse_results`. -/
def run_tests_on_piston_report (problem : Problem) : PistonOutcome → TestResults
  | .httpError statusText => create_error_results problem ("API Error: " ++ statusText)
  | .networkError msg => create_error_results problem ("Network Error: " ++ msg)
  | .parseError msg => create_error_results problem ("Parse Error: " ++ msg)
  | .ok stdout => parse_results stdout problem

/-! ## The LLM translation service (src/llm.rs) -/

/-- Port of `enum ConversionError` from src/llm.rs. -/
inductive ConversionError where
  | ApiError (e : String)
  | EnvError (e : String)
deriving DecidableEq, Repr

/-- Port of `struct Part` from src/llm.rs. -/
structure GPart where
  text : String
deriving DecidableEq, Repr

/-- Port of `struct Content` from src/llm.rs. -/
structure GContent where
  parts : List GPart
deriving DecidableEq, Repr

/-- Port of `struct Candidate` from src/llm.rs. -/
structure GCandidate where
  content : Option GContent
deriving DecidableEq, Repr

/-- Port of `struct GeminiResponse` from src/llm.rs (the error field keeps only the
message, as `GeminiError` does). -/
structure GeminiResponse where
  candidates : Option (List GCandidate)
  error : Option String
deriving DecidableEq, Repr

/-- The observable outcome of the HTTP round trip inside
`LlmConverter::convert_code_sync`: either a decoded `GeminiResponse` or a
send/decode error message. -/
def RemoteGemini := Except String GeminiResponse

/-- The text extraction chain of `convert_code_sync`
(`candidates -> first -> content -> first part -> text`, defaulting to ""). -/
def extractGeminiText (resp : GeminiResponse) : String :=
  ((((resp.candidates.bind List.head?).bind GCandidate.content).bind
      (fun c => c.parts.head?)).map GPart.text).getD ""

/-- Port of `LlmConverter::convert_code_sync` from src/llm.rs.  The remote HTTP call is
modelled by the `remote` argument; the second component of the result records
whether that remote request was issued at all. -/
def convert_code_sync (remote : Except String GeminiResponse) (code : String)
    (fromLang toLang : Language) : Except ConversionError String × Bool :=
  if fromLang = toLang then (Except.ok code, false)
  else
    match remote with
    | .error e => (Except.error (ConversionError.ApiError e), true)
    | .ok resp =>
        match resp.error with
        | some msg => (Except.error (ConversionError.ApiError msg), true)
        | none => (Except.ok (extractGeminiText resp), true)

/-! ## The editor (tui_textarea `TextArea`, modelled) -/

/-- Model of the external `tui_textarea::TextArea`: the visible line buffer and
cursor.  Only the pieces src/app.rs reads (`lines`, `cursor`) are carried;
selection/undo/clipboard state of the library is not modelled, and the library
editing operations below are models of the external crate, not repository
code. -/
structure Editor where
  lines : List String
  cursorRow : Nat
  cursorCol : Nat
deriving DecidableEq, Repr

/-- Library model: `TextArea::cursor()`. -/
def Editor.cursor (e : Editor) : Nat × Nat := (e.cursorRow, e.cursorCol)

/-- Library model: `CursorMove::Jump(row, col)` clamps to the buffer. -/
def Editor.jump (e : Editor) (row col : Nat) : Editor :=
  let r := min row (e.lines.length - 1)
  let c := min col (e.lines.getD r "").length
  { e with cursorRow := r, cursorCol := c }

/-- Library model: inserting one character at the cursor. -/
def Editor.insertChar (e : Editor) (ch : Char) : Editor :=
  let line := e.lines.getD e.cursorRow ""
  let col := min e.cursorCol line.length
  let line2 := String.mk (line.data.take col ++ [ch] ++ line.data.drop col)
  { e with lines := e.lines.set e.cursorRow line2, cursorCol := col + 1 }

/-! ## Key and mouse events (crossterm, modelled) -/

/-- Model of `crossterm::event::KeyCode` (the variants src/app.rs matches on,
plus a catch-all for the rest). -/
inductive KeyCode where
  | Char (c : Char)
  | Left | Right | Up | Down
  | Tab | BackTab | Enter | Esc | Backspace
  | OtherKey
deriving DecidableEq, Repr

/-- Model of `crossterm::event::KeyModifiers` as four flags
(SUPER / CONTROL / ALT / SHIFT). -/
structure KeyModifiers where
  superMod : Bool
  ctrlMod : Bool
  altMod : Bool
  shiftMod : Bool
deriving DecidableEq, Repr

/-- Model of `crossterm::event::KeyEvent`. -/
structure KeyEvent where
  code : KeyCode
  modifiers : KeyModifiers
deriving DecidableEq, Repr

/-- Model of `crossterm::event::MouseEventKind` (variants src/app.rs uses). -/
inductive MouseEventKind where
  | Down | Up | ScrollUp | ScrollDown | OtherMouse
deriving DecidableEq, Repr

/-- Model of `crossterm::event::MouseEvent`. -/
structure MouseEvent where
  kind : MouseEventKind
  column : Nat
  row : Nat
deriving DecidableEq, Repr

/-- Port of `ratatui::layout::Rect` (u16 fields, modelled as naturals). -/
structure Rect where
  x : Nat
  y : Nat
  width : Nat
  height : Nat
deriving DecidableEq, Repr

/-! ## Time (std::time, modelled as rational seconds) -/

/-- Maximum of two rationals by the decidable order (kernel-computable). -/
def qmax (a b : ℚ) : ℚ := if a ≤ b then b else a

/-- Minimum of two rationals by the decidable order (kernel-computable). -/
def qmin (a b : ℚ) : ℚ := if a ≤ b then a else b

/-- Port of `Instant::elapsed()` at absolute time `now` for an instant recorded at
`t` (a `Duration` is nonnegative; the clock is monotonic). -/
def elapsedSince (t now : ℚ) : ℚ := qmax (now - t) 0

/-- Port of `Duration::saturating_sub`. -/
def satSub (a b : ℚ) : ℚ := qmax (a - b) 0

/-- Port of `Duration::as_secs` (whole seconds, fraction truncated; durations are
nonnegative, so integer division of numerator by denominator is the floor). -/
def durationAsSecs (d : ℚ) : Nat := (d.num / (d.den : ℤ)).toNat

/-! ## The session state machine (src/app.rs) -/

/-- Port of `enum AppState` from src/app.rs.  `f32` progress scalars are rationals,
the countdown count is the `u8` value. -/
inductive AppState where
  | Coding
  | Countdown (count : Nat)
  | Transitioning (progress : ℚ)
  | Revealing (progress : ℚ)
  | Submitting (progress : ℚ) (results : Option TestResults)
  | Results (results : TestResults)
deriving DecidableEq, Repr

/-- Port of `enum TranslationEvent` from src/app.rs. -/
inductive TranslationEvent where
  | Success (code : String)
  | Failure (msg : String)
deriving DecidableEq, Repr

/-- Port of `struct OutputLine` from src/app.rs. -/
structure OutputLine where
  text : String
  is_error : Bool
deriving DecidableEq, Repr

/-- Port of `enum ExecutionEvent` from src/app.rs. -/
inductive ExecutionEvent where
  | Log (line : OutputLine)
  | Finished (results : TestResults)
  | RunFinished (results : TestResults)
deriving DecidableEq, Repr

/-- Model of a live translation job: the identity of the tokio channel created
by `start_llm_translation` plus the data the spawned task was given (the code
snapshot and the language pair; the prompt sent to the service is a pure
function of these and the problem signature). -/
structure TransJob where
  jobId : Nat
  code : String
  fromLang : Language
  toLang : Language
deriving DecidableEq, Repr

/-- Port of `struct App` from src/app.rs.  Channel receivers are modelled by job
identities (`output_rx` by the execution job id, `translation_rx` by a
`TransJob`); `next_job_id` models the freshness of newly created channels. -/
structure App where
  problem : Problem
  editor : Editor
  current_language : Language
  state : AppState
  last_randomize : ℚ
  randomize_interval : ℚ
  test_results : Option TestResults
  scroll_offset : Nat
  transition_start : Option ℚ
  glitch_frame : Nat
  output_rx : Option Nat
  execution_output : List OutputLine
  execution_progress : ℚ
  show_output_panel : Bool
  editor_area : Rect
  countdown_start : Option ℚ
  pending_language : Option Language
  pending_problem : Option Problem
  translation_rx : Option TransJob
  pending_translation : Option TranslationEvent
  code_sent_for_translation : Option String
  editor_scroll : Nat
  next_job_id : Nat
deriving DecidableEq, Repr

/-- Port of `App::build_editor_with_text` from src/app.rs (split at newlines, strip a
trailing carriage return per line; `TextArea::new` places the cursor at the
origin). -/
def build_editor_with_text (text : String) : Editor :=
  let lines := (splitNewlineAux [] text.data).map
    (fun cs => String.mk (if cs.getLast? = some '\r' then cs.dropLast else cs))
  let lines := if lines.isEmpty then [""] else lines
  { lines := lines, cursorRow := 0, cursorCol := 0 }

/-- Port of `App::code_text`. -/
def App.code_text (a : App) : String := String.intercalate "\n" a.editor.lines

/-- Port of `App::line_number_width`. -/
def App.line_number_width (a : App) : Nat :=
  max (toString a.editor.lines.length).length 2

/-- Port of `App::set_editor_content_with_cursor` from src/app.rs (rebuild the buffer,
clamp the requested cursor to the new bounds; the `as u16` casts truncate). -/
def App.set_editor_content_with_cursor (a : App) (text : String)
    (cursor : Option (Nat × Nat)) : App :=
  let a := { a with editor := build_editor_with_text text }
  let a :=
    match cursor with
    | some rc =>
        let maxRow := a.editor.lines.length - 1
        let targetRow := min rc.1 maxRow
        let lineLen := (a.editor.lines.getD targetRow "").length
        let targetCol := min rc.2 lineLen
        { a with editor := a.editor.jump (targetRow % 65536) (targetCol % 65536) }
    | none => a
  { a with editor_scroll := 0 }

/-- Port of `App::set_editor_content`. -/
def App.set_editor_content (a : App) (text : String) : App :=
  a.set_editor_content_with_cursor text none

/-! ## Starter code templates (`get_starter_code`, src/app.rs) -/

/-- Python type mapping in `get_starter_code`. -/
def pyTypeOf : String → String
  | "int" => "int"
  | "int[]" => "list[int]"
  | "string" => "str"
  | "string[]" => "list[str]"
  | "char[]" => "list[str]"
  | "bool" => "bool"
  | _ => "Any"

/-- JavaScript/JSDoc type mapping in `get_starter_code`. -/
def jsTypeOf : String → String
  | "int" => "number"
  | "int[]" => "number[]"
  | "string" => "string"
  | "string[]" => "string[]"
  | "char[]" => "string[]"
  | "bool" => "boolean"
  | _ => "*"

/-- Lua annotation type mapping in `get_starter_code`. -/
def luaTypeOf : String → String
  | "int" => "number"
  | "int[]" => "number[]"
  | "string" => "string"
  | "string[]" => "string[]"
  | "char[]" => "string[]"
  | "bool" => "boolean"
  | _ => "any"

/-- Elixir `@spec` type mapping in `get_starter_code`. -/
def elixirTypeOf : String → String
  | "int" => "integer()"
  | "int[]" => "list(integer())"
  | "string" => "String.t()"
  | "string[]" => "list(String.t())"
  | "char[]" => "list(String.t())"
  | "bool" => "boolean()"
  | _ => "any()"

/-- Port of `get_starter_code` from src/app.rs: the per-language starter template for a
problem (literal port of the `format!` templates; `\x7b`/`\x7d` are the brace
characters). -/
def get_starter_code (problem : Problem) (language : Language) : String :=
  let funcName := problem.function_name
  match language with
  | .Python =>
      let args := String.intercalate ", "
        (problem.parameters.map (fun p => p.name ++ ": " ++ pyTypeOf p.param_type))
      let retType := pyTypeOf problem.return_type
      "def " ++ funcName ++ "(" ++ args ++ ") -> " ++ retType ++
        ":\n    # Write your solution here\n    pass"
  | .JavaScript =>
      let args := String.intercalate ", " (problem.parameters.map (fun p => p.name))
      let paramDocs := String.intercalate "\n"
        (problem.parameters.map (fun p =>
          " * @param \x7b" ++ jsTypeOf p.param_type ++ "\x7d " ++ p.name))
      let retType := jsTypeOf problem.return_type
      "/**\n" ++ paramDocs ++ "\n * @returns \x7b" ++ retType ++ "\x7d\n */\nfunction " ++
        funcName ++ "(" ++ args ++ ") \x7b\n    // Write your solution here\n    \n\x7d"
  | .TypeScript =>
      let ar : String × String :=
        match problem.id with
        | 1 => ("nums: number[], target: number", "number[]")
        | 2 => ("s: string[]", "void")
        | 3 => ("n: number", "string[]")
        | 4 => ("s: string", "boolean")
        | 5 => ("n: number", "number")
        | _ => ("...", "any")
      "function " ++ funcName ++ "(" ++ ar.1 ++ "): " ++ ar.2 ++
        " \x7b\n    // Write your solution here\n    \n\x7d"
  | .Rust =>
      let ar : String × String :=
        match problem.id with
        | 1 => ("nums: Vec<i32>, target: i32", "Vec<i32>")
        | 2 => ("s: &mut Vec<char>", "")
        | 3 => ("n: i32", "Vec<String>")
        | 4 => ("s: String", "bool")
        | 5 => ("n: i32", "i32")
        | _ => ("...", "()")
      let retStr := if ar.2 = "" then "" else " -> " ++ ar.2
      let body := if ar.2 = "" then "" else "    todo!()\n"
      "pub fn " ++ funcName ++ "(" ++ ar.1 ++ ")" ++ retStr ++
        " \x7b\n    // Write your solution here\n" ++ body ++ "\x7d"
  | .Go =>
      let ar : String × String :=
        match problem.id with
        | 1 => ("nums []int, target int", "[]int")
        | 2 => ("s []string", "")
        | 3 => ("n int", "[]string")
        | 4 => ("s string", "bool")
        | 5 => ("n int", "int")
        | _ => ("...", "")
      let retStr := if ar.2 = "" then "" else " " ++ ar.2
      let returnStmt : String :=
        match problem.id with
        | 1 => "    return nil\n"
        | 2 => "    return nil\n"
        | 3 => "    return nil\n"
        | 4 => "    return false\n"
        | 5 => "    return 0\n"
        | _ => ""
      "func " ++ funcName ++ "(" ++ ar.1 ++ ")" ++ retStr ++
        " \x7b\n    // Write your solution here\n" ++ returnStmt ++ "\x7d"
  | .Java =>
      let arr : String × String × String :=
        match problem.id with
        | 1 => ("int[] nums, int target", "int[]", "return new int[0];")
        | 2 => ("char[] s", "void", "")
        | 3 => ("int n", "List<String>", "return new ArrayList<>();")
        | 4 => ("String s", "boolean", "return false;")
        | 5 => ("int n", "int", "return 0;")
        | _ => ("...", "Object", "return null;")
      "public " ++ arr.2.1 ++ " " ++ funcName ++ "(" ++ arr.1 ++
        ") \x7b\n    // Write your solution here\n    " ++ arr.2.2 ++ "\n\x7d"
  | .Haskell =>
      let ar : String × String :=
        match problem.id with
        | 1 => ("nums target", "[Int] -> Int -> [Int]")
        | 2 => ("s", "[Char] -> [Char]")
        | 3 => ("n", "Int -> [String]")
        | 4 => ("s", "String -> Bool")
        | 5 => ("n", "Int -> Int")
        | _ => ("...", "a -> b")
      funcName ++ " :: " ++ ar.2 ++ "\n" ++ funcName ++ " " ++ ar.1 ++
        " = \n    -- Write your solution here\n    undefined"
  | .Lua =>
      let args := String.intercalate ", " (problem.parameters.map (fun p => p.name))
      let typeComment := String.intercalate "\n"
        (problem.parameters.map (fun p => "---@param " ++ p.name ++ " " ++ luaTypeOf p.param_type))
      let retType := luaTypeOf problem.return_type
      typeComment ++ "\n---@return " ++ retType ++ "\nfunction " ++ funcName ++ "(" ++ args ++
        ")\n    -- Write your solution here\n    \nend"
  | .OCaml =>
      let ar : String × String :=
        match problem.id with
        | 1 => ("nums target", "int list -> int -> int list")
        | 2 => ("s", "char list -> char list")
        | 3 => ("n", "int -> string list")
        | 4 => ("s", "string -> bool")
        | 5 => ("n", "int -> int")
        | _ => ("...", "'a -> 'b")
      "let " ++ funcName ++ " " ++ ar.1 ++ " : " ++ ar.2 ++
        " =\n  (* Write your solution here *)\n  failwith \"Not implemented\""
  | .Elixir =>
      let args := String.intercalate ", " (problem.parameters.map (fun p => p.name))
      let paramTypes := String.intercalate ", "
        (problem.parameters.map (fun p => elixirTypeOf p.param_type))
      let retType := elixirTypeOf problem.return_type
      "@spec " ++ funcName ++ "(" ++ paramTypes ++ ") :: " ++ retType ++ "\ndef " ++ funcName ++
        "(" ++ args ++ ") do\n  # Write your solution here\n  \nend"
  | .Kotlin =>
      let arr : String × String × String :=
        match problem.id with
        | 1 => ("nums: IntArray, target: Int", "IntArray", "return intArrayOf()")
        | 2 => ("s: CharArray", "Unit", "")
        | 3 => ("n: Int", "List<String>", "return emptyList()")
        | 4 => ("s: String", "Boolean", "return false")
        | 5 => ("n: Int", "Int", "return 0")
        | _ => ("...", "Any", "return null")
      let retHead := if arr.2.1 = "Unit" then "" else ": "
      let body :=
        if arr.2.2 = "" then "    // Write your solution here\n"
        else "    // Write your solution here\n    " ++ arr.2.2 ++ "\n"
      "fun " ++ funcName ++ "(" ++ arr.1 ++ ")" ++ retHead ++ arr.2.1 ++
        " \x7b\n" ++ body ++ "\x7d"
  | .Swift =>
      let arr : String × String × String :=
        match problem.id with
        | 1 => ("_ nums: [Int], _ target: Int", "[Int]", "return []")
        | 2 => ("_ s: inout [Character]", "Void", "")
        | 3 => ("_ n: Int", "[String]", "return []")
        | 4 => ("_ s: String", "Bool", "return false")
        | 5 => ("_ n: Int", "Int", "return 0")
        | _ => ("...", "Any", "return nil")
      let retStr := if arr.2.1 = "Void" then "" else " -> " ++ arr.2.1
      let body :=
        if arr.2.2 = "" then "    // Write your solution here\n"
        else "    // Write your solution here\n    " ++ arr.2.2 ++ "\n"
      "func " ++ funcName ++ "(" ++ arr.1 ++ ")" ++ retStr ++ " \x7b\n" ++ body ++ "\x7d"

/-! ## Models of the remaining tui_textarea editing operations (external crate).
None of the claims depends on the internal behaviour of these library calls;
they are given simple executable models so that the key-handling code of
src/app.rs can be ported structurally. -/

/-- Library model: `CursorMove::Top`. -/
def Editor.top (e : Editor) : Editor := e.jump 0 e.cursorCol

/-- Library model: `CursorMove::Bottom`. -/
def Editor.bottom (e : Editor) : Editor := e.jump (e.lines.length - 1) e.cursorCol

/-- Library model: `CursorMove::Up`. -/
def Editor.up (e : Editor) : Editor := e.jump (e.cursorRow - 1) e.cursorCol

/-- Library model: `CursorMove::Down`. -/
def Editor.down (e : Editor) : Editor := e.jump (e.cursorRow + 1) e.cursorCol

/-- Library model: deleting the character before the cursor. -/
def Editor.deletePrevChar (e : Editor) : Editor :=
  let line := e.lines.getD e.cursorRow ""
  if e.cursorCol = 0 then e
  else
    let col := min e.cursorCol line.length
    let line2 := String.mk (line.data.take (col - 1) ++ line.data.drop col)
    { e with lines := e.lines.set e.cursorRow line2, cursorCol := col - 1 }

/-- Library model: `TextArea::delete_next_char` (the character under the
cursor). -/
def Editor.deleteNextChar (e : Editor) : Editor :=
  let line := e.lines.getD e.cursorRow ""
  let line2 := String.mk (line.data.take e.cursorCol ++ line.data.drop (e.cursorCol + 1))
  { e with lines := e.lines.set e.cursorRow line2 }

/-- Library model: `TextArea::delete_line_by_end`. -/
def Editor.deleteLineByEnd (e : Editor) : Editor :=
  let line := e.lines.getD e.cursorRow ""
  { e with lines := e.lines.set e.cursorRow (String.mk (line.data.take e.cursorCol)) }

/-- Library model: `TextArea::delete_line_by_head`. -/
def Editor.deleteLineByHead (e : Editor) : Editor :=
  let line := e.lines.getD e.cursorRow ""
  { e with lines := e.lines.set e.cursorRow (String.mk (line.data.drop e.cursorCol)),
           cursorCol := 0 }

/-- Library model: `TextArea::delete_word` (the word before the cursor along
with the blanks separating it from the cursor). -/
def Editor.deleteWordBack (e : Editor) : Editor :=
  let line := e.lines.getD e.cursorRow ""
  let col := min e.cursorCol line.length
  let before := line.data.take col
  let rest := (before.reverse.dropWhile (fun c => c = ' ')).dropWhile (fun c => c ≠ ' ')
  let line2 := String.mk (rest.reverse ++ line.data.drop col)
  { e with lines := e.lines.set e.cursorRow line2, cursorCol := rest.length }

/-- Library model: `TextArea::insert_tab` (soft tab of width 4). -/
def Editor.insertTabSoft (e : Editor) : Editor :=
  ((e.insertChar ' ').insertChar ' ' |>.insertChar ' ').insertChar ' '

/-- Library model: `TextArea::insert_newline` (split the current line at the
cursor). -/
def Editor.insertNewline (e : Editor) : Editor :=
  let line := e.lines.getD e.cursorRow ""
  let col := min e.cursorCol line.length
  let beforeLine := String.mk (line.data.take col)
  let afterLine := String.mk (line.data.drop col)
  { e with
    lines := e.lines.take e.cursorRow ++ [beforeLine, afterLine] ++ e.lines.drop (e.cursorRow + 1)
    cursorRow := e.cursorRow + 1
    cursorCol := 0 }

/-- Library model: `TextArea::insert_str` at the cursor (no newlines in the
inserted text on the one call site, which inserts spaces). -/
def Editor.insertStr (e : Editor) (s : String) : Editor :=
  s.data.foldl (fun acc c => acc.insertChar c) e

/-- Library model: `TextArea::is_selecting` (selection state is not modelled,
so no selection is ever active). -/
def Editor.selecting (_e : Editor) : Bool := false

/-- Library model: `TextArea::copy` (clipboard not modelled). -/
def Editor.copyClip (e : Editor) : Editor := e

/-- Library model: `TextArea::cut` (clipboard not modelled; only reachable
when a selection is active, which the model never has). -/
def Editor.cutClip (e : Editor) : Editor := e

/-- Library model: `TextArea::paste` (clipboard not modelled). -/
def Editor.pasteClip (e : Editor) : Editor := e

/-- Library model: `TextArea::undo` (edit history not modelled). -/
def Editor.undoEdit (e : Editor) : Editor := e

/-- Library model: `TextArea::redo` (edit history not modelled). -/
def Editor.redoEdit (e : Editor) : Editor := e

/-- Library model: `TextArea::cancel_selection`. -/
def Editor.cancelSelection (e : Editor) : Editor := e

/-- Library model: `TextArea::input` for the events that reach it in
`handle_coding_key` (plain typing: characters, backspace, arrows). -/
def Editor.applyInput (e : Editor) (key : KeyEvent) : Editor :=
  match key.code with
  | .Char c => e.insertChar c
  | .Backspace => e.deletePrevChar
  | .Left => e.jump e.cursorRow (e.cursorCol - 1)
  | .Right => e.jump e.cursorRow (e.cursorCol + 1)
  | .Up => e.up
  | .Down => e.down
  | _ => e

/-! ## App methods (src/app.rs) -/

/-- Port of `App::new` from src/app.rs; the `Problem::random()` draw and the creation
instant are explicit arguments.  `LANGUAGE_CHANGE_INTERVAL_SECS = 15`. -/
def App.new (problem : Problem) (now : ℚ) : App :=
  let currentLanguage := Language.Python
  let starter := get_starter_code problem currentLanguage
  { problem := problem
    editor := build_editor_with_text starter
    current_language := currentLanguage
    state := .Coding
    last_randomize := now
    randomize_interval := 15
    test_results := none
    scroll_offset := 0
    transition_start := none
    glitch_frame := 0
    output_rx := none
    execution_output := []
    execution_progress := 0
    show_output_panel := false
    editor_area := ⟨0, 0, 0, 0⟩
    countdown_start := none
    pending_language := none
    pending_problem := none
    translation_rx := none
    pending_translation := none
    code_sent_for_translation := none
    editor_scroll := 0
    next_job_id := 0 }

/-- Port of `App::translation_ready`. -/
def App.translation_ready (a : App) : Bool := a.pending_translation.isSome

/-- Port of `App::start_llm_translation` from src/app.rs.  Dropping the old receiver is
`translation_rx := none`; the `from == to` shortcut resolves locally; otherwise
a fresh channel/job is created (the prompt handed to the spawned task is a pure
function of the recorded snapshot, language pair and problem signature). -/
def App.start_llm_translation (a : App) : App :=
  let a := { a with translation_rx := none }
  match a.pending_language with
  | none => a
  | some targetLanguage =>
      let code := a.code_text
      let a := { a with code_sent_for_translation := some code }
      if a.current_language = targetLanguage then
        { a with pending_translation := some (.Success code) }
      else
        { a with
          translation_rx :=
            some ⟨a.next_job_id, code, a.current_language, targetLanguage⟩
          next_job_id := a.next_job_id + 1 }

/-- Port of `App::start_countdown` from src/app.rs: record the countdown instant, show
5, pre-select the next language; translation is not started here. -/
def App.start_countdown (a : App) (now : ℚ) (choice : Language) : App :=
  { a with countdown_start := some now
           state := .Countdown 5
           pending_language := some (a.current_language.random_except choice) }

/-- Port of `App::start_transition` from src/app.rs: enter the glitch phase and start
the translation now that the countdown has finished. -/
def App.start_transition (a : App) (now : ℚ) : App :=
  App.start_llm_translation
    { a with transition_start := some now, state := .Transitioning 0 }

/-- Port of `App::start_reveal`. -/
def App.start_reveal (a : App) (now : ℚ) : App :=
  { a with transition_start := some now, state := .Revealing 0 }

/-- Port of `App::complete_transition` from src/app.rs: apply the pending language,
apply a successful translation to the editor (keeping the cursor by
row/column), drop a failed one, then reset the rotation timer. -/
def App.complete_transition (a : App) (now : ℚ) : App :=
  let cursor := a.editor.cursor
  let a :=
    match a.pending_language with
    | some newLang =>
        let a := { a with pending_language := none }
        let a :=
          match a.pending_translation with
          | some result =>
              let a := { a with pending_translation := none }
              (match result with
               | .Success translated => a.set_editor_content_with_cursor translated (some cursor)
               | .Failure _ => a)
          | none => a
        { a with current_language := newLang }
    | none => a
  { a with pending_problem := none
           translation_rx := none
           pending_translation := none
           last_randomize := now
           state := .Coding
           transition_start := none
           countdown_start := none }

/-- Port of `App::tick` from src/app.rs.  `now` is the instant of the call; `choice`
is the random language draw consumed if this tick enters the countdown. -/
def App.tick (a : App) (now : ℚ) (choice : Language) : App :=
  let a := { a with glitch_frame := (a.glitch_frame + 1) % 10 }
  match a.state with
  | .Coding =>
      let elapsed := elapsedSince a.last_randomize now
      let countdownThreshold := satSub a.randomize_interval 5
      if elapsed ≥ countdownThreshold ∧ a.countdown_start = none then
        a.start_countdown now choice
      else a
  | .Countdown count =>
      let elapsed := elapsedSince a.last_randomize now
      let remaining := satSub a.randomize_interval elapsed
      let newCount := durationAsSecs remaining % 256
      if newCount = 0 ∨ remaining = 0 then a.start_transition now
      else if newCount ≠ count then { a with state := .Countdown newCount }
      else a
  | .Transitioning _ =>
      (match a.transition_start with
       | some start =>
           let elapsed := elapsedSince start now
           let newProgress := qmin (elapsed / (3 / 2)) 1
           if newProgress ≥ 1 then a.start_reveal now
           else { a with state := .Transitioning newProgress }
       | none => a)
  | .Revealing _ =>
      (match a.transition_start with
       | some start =>
           let elapsed := elapsedSince start now
           let newProgress := qmin (elapsed / 3) 1
           if newProgress ≥ 1 then
             if a.translation_ready then a.complete_transition now
             else { a with state := .Revealing (99 / 100) }
           else { a with state := .Revealing newProgress }
       | none => a)
  | .Submitting progress results =>
      let increment : ℚ :=
        if progress < 3 / 10 then 1 / 40
        else if progress < 19 / 20 ∧ results = none then 1 / 100
        else if results.isSome then 7 / 200
        else 1 / 200
      let progress := progress + increment
      (match results with
       | some r =>
           if progress ≥ 1 then { a with state := .Results r }
           else { a with state := .Submitting progress results }
       | none =>
           let progress := if progress > 19 / 20 then 19 / 20 else progress
           { a with state := .Submitting progress none })
  | .Results _ => a

/-- One iteration of the event loop in `App::poll_execution`: apply one event
received on the live execution channel; the boolean is this event's
contribution to `should_close`. -/
def App.process_execution_event (a : App) (ev : ExecutionEvent) : App × Bool :=
  match ev with
  | .Log line =>
      let out := a.execution_output ++ [line]
      let a := { a with execution_output := out }
      let a := if out.length > 10 then { a with scroll_offset := out.length - 10 } else a
      (a, false)
  | .Finished results =>
      let a := { a with test_results := some results }
      let a :=
        match a.state with
        | .Submitting progress _ =>
            { a with state := .Submitting (qmax progress (19 / 20)) (some results) }
        | _ => a
      (a, true)
  | .RunFinished results =>
      let a := { a with test_results := some results }
      let a := { a with execution_output := a.execution_output ++ [OutputLine.mk "" false] }
      let scoreText := "RESULTS: " ++ toString results.passed ++ "/" ++ toString results.total
        ++ " tests passed (" ++ toString (results.passed * 100 / max results.total 1) ++ "%)"
      let a := { a with execution_output :=
        a.execution_output ++ [OutputLine.mk scoreText (results.passed != results.total)] }
      let a := { a with execution_output :=
        a.execution_output ++ [OutputLine.mk (String.mk (List.replicate 60 '─')) false] }
      let detailLines := results.details.flatMap (fun detail =>
        let status := if detail.passed then "✓ PASS" else "✗ FAIL"
        let statusLine : OutputLine :=
          ⟨status ++ " Test #" ++ toString detail.case_number, !detail.passed⟩
        if detail.passed then [statusLine]
        else [statusLine,
              ⟨"  Input: " ++ detail.input, false⟩,
              ⟨"  Expected: " ++ detail.expected, false⟩,
              ⟨"  Got: " ++ detail.actual, true⟩])
      let a := { a with execution_output := a.execution_output ++ detailLines }
      (a, true)

/-- Port of `App::poll_execution` from src/app.rs: drain the events available on the
live execution channel (none are received when no channel is held); drop the
channel after a terminal event. -/
def App.poll_execution (a : App) (events : List ExecutionEvent) : App :=
  match a.output_rx with
  | none => a
  | some _ =>
      let step := events.foldl
        (fun (p : App × Bool) ev =>
          let q := p.1.process_execution_event ev
          (q.1, p.2 || q.2)) (a, false)
      if step.2 then { step.1 with output_rx := none } else step.1

/-- Port of `App::poll_translation` from src/app.rs: a translation job delivers exactly
one terminal event on its own channel.  `delivered` carries the sending job's
identity; a message from a superseded job is a message on a dropped channel,
which `try_recv` on the live receiver can never yield — so it is applied only
when the identity matches the live receiver. -/
def App.poll_translation (a : App) (delivered : Option (Nat × TranslationEvent)) : App :=
  match a.translation_rx, delivered with
  | some job, some ev =>
      if ev.1 = job.jobId then
        { a with pending_translation := some ev.2, translation_rx := none }
      else a
  | _, _ => a

/-- Port of `App::execute_code` from src/app.rs: reset the output log, create a fresh
channel (the spawned remote execution task lives off-thread). -/
def App.execute_code (a : App) (isSubmit : Bool) : App :=
  let firstLine : OutputLine :=
    ⟨if isSubmit then "Compiling and sending to Piston API..."
      else "Running code on Piston API...", false⟩
  { a with execution_output := [firstLine]
           output_rx := some a.next_job_id
           next_job_id := a.next_job_id + 1 }

/-- Port of `App::run_code`. -/
def App.run_code (a : App) : App := a.execute_code false

/-- Port of `App::submit` from src/app.rs. -/
def App.submit (a : App) : App :=
  App.execute_code { a with state := .Submitting 0 none } true

/-- Port of `App::move_to_line_start`. -/
def App.move_to_line_start (a : App) : App :=
  { a with editor := a.editor.jump (a.editor.cursorRow % 65536) 0 }

/-- Port of `App::move_to_line_end`. -/
def App.move_to_line_end (a : App) : App :=
  let row := a.editor.cursorRow
  let lineLen := (a.editor.lines.getD row "").length
  { a with editor := a.editor.jump (row % 65536) (lineLen % 65536) }

/-- Port of `App::delete_to_end_of_line`. -/
def App.delete_to_end_of_line (a : App) : App :=
  { a with editor := a.editor.deleteLineByEnd }

/-- Port of `App::delete_to_start_of_line`. -/
def App.delete_to_start_of_line (a : App) : App :=
  { a with editor := a.editor.deleteLineByHead }

/-- The blank-counting loop of `App::unindent_current_line`: over the first
four characters, count spaces; a tab forces exactly one removed character. -/
def unindentRemoveAux : Nat → List Char → Nat
  | n, [] => n
  | n, c :: rest =>
      if c = ' ' then unindentRemoveAux (n + 1) rest
      else if c = '\t' then 1
      else n

/-- Port of `App::unindent_current_line` from src/app.rs. -/
def App.unindent_current_line (a : App) : App :=
  match a.editor.lines.get? a.editor.cursorRow with
  | none => a
  | some line =>
      let row := a.editor.cursorRow
      let col := a.editor.cursorCol
      let remove := unindentRemoveAux 0 (line.data.take 4)
      if remove = 0 then a
      else
        let e := (a.editor.cancelSelection).jump (row % 65536) 0
        let e := (List.range remove).foldl (fun acc _ => acc.deleteNextChar) e
        let newCol := col - remove
        { a with editor := e.jump (row % 65536) (newCol % 65536) }

/-- Port of `App::insert_newline_with_indent` from src/app.rs. -/
def App.insert_newline_with_indent (a : App) : App :=
  let row := a.editor.cursorRow
  let currentLine := (a.editor.lines.get? row).getD ""
  let indent := (currentLine.data.takeWhile (fun c => c = ' ')).length
  let e := a.editor.insertNewline
  let e := if indent > 0 then e.insertStr (String.mk (List.replicate indent ' ')) else e
  { a with editor := e }

/-- Port of `Problem::random_except` (src/problem.rs): a uniform draw from the built-in
five-problem catalogue excluding the current id; the draw is the explicit
`chosen` argument. -/
def Problem.random_except (_p : Problem) (chosen : Problem) : Problem := chosen

/-- Port of `App::randomize_problem` from src/app.rs. -/
def App.randomize_problem (a : App) (chosen : Problem) : App :=
  let newProblem := a.problem.random_except chosen
  let a := { a with problem := newProblem }
  a.set_editor_content (get_starter_code newProblem a.current_language)

/-- The code after the modifier-chord match in `App::handle_coding_key` (the
fall-through reached when no chord arm returned): BackTab / Tab / Enter
handling, then plain `TextArea::input`. -/
def App.coding_key_rest (a : App) (key : KeyEvent)
    (hasModifier isAlt isShift : Bool) : App :=
  if key.code = .BackTab then a.unindent_current_line
  else if key.code = .Tab ∧ hasModifier = false ∧ isAlt = false then
    (if isShift then a.unindent_current_line
     else { a with editor := a.editor.insertTabSoft })
  else if key.code = .Enter ∧ hasModifier = false ∧ isAlt = false then
    a.insert_newline_with_indent
  else { a with editor := a.editor.applyInput key }

/-- Port of `App::handle_coding_key` from src/app.rs: modifier chords first (each arm
returns), then the fall-through `coding_key_rest`.  The Rust `match` on
`key.code` with char payloads and `if is_cmd` guards is rendered as the
equivalent sequential equality tests. -/
def App.handle_coding_key (a : App) (key : KeyEvent) (rndProblem : Problem) : App :=
  if (key.modifiers.superMod || key.modifiers.ctrlMod) = true ∧
      key.modifiers.altMod = false then
    if key.code = .Char 's' ∨ key.code = .Char 'S' then a.submit
    else if key.code = .Char 'q' ∨ key.code = .Char 'Q' then a
    else if key.code = .Char 'r' ∨ key.code = .Char 'R' then
      a.randomize_problem rndProblem
    else if key.code = .Char 'c' ∨ key.code = .Char 'C' then
      (if a.editor.selecting then { a with editor := a.editor.copyClip }
       else App.run_code { a with show_output_panel := true })
    else if key.code = .Char 'x' ∨ key.code = .Char 'X' then
      (if a.editor.selecting then { a with editor := a.editor.cutClip } else a)
    else if key.code = .Char 'v' ∨ key.code = .Char 'V' then
      { a with editor := a.editor.pasteClip }
    else if key.code = .Char 'z' ∨ key.code = .Char 'Z' then
      { a with editor := a.editor.undoEdit }
    else if key.code = .Char 'y' ∨ key.code = .Char 'Y' then
      { a with editor := a.editor.redoEdit }
    else if key.code = .Char 'a' ∨ key.code = .Char 'A' then a.move_to_line_start
    else if key.code = .Char 'e' ∨ key.code = .Char 'E' then a.move_to_line_end
    else if key.code = .Char 'u' ∨ key.code = .Char 'U' then a.delete_to_start_of_line
    else if key.code = .Char 'k' ∨ key.code = .Char 'K' then a.delete_to_end_of_line
    else if key.code = .Char 'w' ∨ key.code = .Char 'W' then
      { a with editor := a.editor.deleteWordBack }
    else if key.code = .Char 'd' ∨ key.code = .Char 'D' then
      { a with editor := a.editor.deleteNextChar }
    else if key.code = .Left ∧ key.modifiers.superMod = true then a.move_to_line_start
    else if key.code = .Right ∧ key.modifiers.superMod = true then a.move_to_line_end
    else if key.code = .Up ∧ key.modifiers.superMod = true then
      { a with editor := a.editor.top }
    else if key.code = .Down ∧ key.modifiers.superMod = true then
      { a with editor := a.editor.bottom }
    else a.coding_key_rest key (key.modifiers.superMod || key.modifiers.ctrlMod)
      key.modifiers.altMod key.modifiers.shiftMod
  else a.coding_key_rest key (key.modifiers.superMod || key.modifiers.ctrlMod)
    key.modifiers.altMod key.modifiers.shiftMod

/-- Port of `App::handle_results_key` from src/app.rs (`now` models the
`Instant::now()` of the timer reset). -/
def App.handle_results_key (a : App) (key : KeyEvent) (now : ℚ) : App :=
  match key.code with
  | .Enter =>
      { a with state := .Coding, test_results := none, execution_output := []
               show_output_panel := false, execution_progress := 0
               output_rx := none, last_randomize := now }
  | .Char 'r' =>
      { a with state := .Coding, test_results := none, execution_output := []
               show_output_panel := false, execution_progress := 0
               output_rx := none, last_randomize := now }
  | _ => a

/-- Port of `App::handle_key` from src/app.rs: input reaches the editor only in the
Coding and Countdown phases, the results screen handles its own keys, and all
other phases ignore keyboard input entirely. -/
def App.handle_key (a : App) (key : KeyEvent) (now : ℚ) (rndProblem : Problem) : App :=
  match a.state with
  | .Coding => a.handle_coding_key key rndProblem
  | .Countdown _ => a.handle_coding_key key rndProblem
  | .Results _ => a.handle_results_key key now
  | _ => a

/-- Port of `App::handle_mouse` from src/app.rs: mouse events are processed only in
the Coding phase. -/
def App.handle_mouse (a : App) (mouse : MouseEvent) : App :=
  if a.state ≠ .Coding then a
  else
    match mouse.kind with
    | .Down | .Up =>
        let clickX := mouse.column
        let clickY := mouse.row
        let gutterWidth := a.line_number_width + 1
        if clickX ≥ a.editor_area.x + 1 + gutterWidth ∧
           clickX < a.editor_area.x + a.editor_area.width - 1 ∧
           clickY ≥ a.editor_area.y + 1 ∧
           clickY < a.editor_area.y + a.editor_area.height - 1 then
          let lineNum := (clickY - a.editor_area.y - 1) + a.editor_scroll
          let colInLine := clickX - a.editor_area.x - 1 - gutterWidth
          if lineNum < a.editor.lines.length then
            let maxCol := (a.editor.lines.getD lineNum "").length
            let col := min colInLine maxCol
            { a with editor := a.editor.jump (lineNum % 65536) (col % 65536) }
          else a
        else a
    | .ScrollUp => { a with editor := a.editor.up }
    | .ScrollDown => { a with editor := a.editor.down }
    | .OtherMouse => a

/-! ## Derived notions used by the specification statements -/

/-- Iterated `App::tick` over a sequence of (instant, random draw) pairs. -/
def tickSeq (a : App) : List (ℚ × Language) → App
  | [] => a
  | t :: ts => tickSeq (a.tick t.1 t.2) ts

/-- The back-pressure invariant of the Submitting phase: the session is in
`Submitting` with no report attached and progress at most 0.95. -/
def cappedNoReport : AppState → Bool
  | .Submitting p none => decide (p ≤ 19 / 20)
  | _ => false

/-- The phases in which `tick` is idempotent (same `now`) on the state field. -/
def tickIdemPhase : AppState → Bool
  | .Countdown _ => true
  | .Transitioning _ => true
  | .Revealing _ => true
  | .Results _ => true
  | _ => false

/-- The verdict paired positionally with test case `i`: entry `i` of the
verdict array's "passed" field, a missing or non-boolean entry defaulting to
failed. -/
def pairedPassed (arr : List Json) (i : Nat) : Bool :=
  (((arr.get? i).bind (fun r => r.getField "passed")).bind Json.asBool).getD false

/-- The "actual" text paired positionally with test case `i` (defaulting to
"Error"). -/
def pairedActual (arr : List Json) (i : Nat) : String :=
  (((arr.get? i).bind (fun r => r.getField "actual")).bind Json.asStr).getD "Error"

/-- The candidate line the result verifier selects from captured stdout: the
first line from the end whose trimmed text starts with the array delimiter. -/
def verdictLine (stdout : String) : Option String :=
  (rustLines stdout).reverse.find? (fun l => strStartsWith (rustTrim l) '[')

/-! ## Concrete instances used by witnesses and counterexamples -/

/-- A two-test-case problem (the Two Sum shape used by the spec's round-trip
example). -/
def prTwo : Problem :=
  Problem.mk 1 "1. Two Sum" "desc" [] []
    [TestCase.mk ["[2,7,11,15]", "9"] "[0,1]", TestCase.mk ["[3,2,4]", "6"] "[1,2]"]
    "two_sum" [] "int[]"

/-- The spec's round-trip verdict line. -/
def specLine : String :=
  "[\x7b\"passed\":true,\"actual\":\"[0,1]\"\x7d,\x7b\"passed\":false,\"actual\":\"[]\"\x7d]"

/-- The parsed form of `specLine`. -/
def arrSpec : List Json :=
  [Json.obj [("passed", Json.bool true), ("actual", Json.str "[0,1]")],
   Json.obj [("passed", Json.bool false), ("actual", Json.str "[]")]]

/-- A fresh session over `prTwo` created at time 0. -/
def appBase : App := App.new prTwo 0

/-- A session sitting in the countdown (entered at elapsed 10 of the 15s
interval) with Rust pre-selected. -/
def appCd : App :=
  { appBase with state := AppState.Countdown 5
                 countdown_start := some 10
                 pending_language := some Language.Rust }

/-- Port of `appCd` after a snapshot has already been recorded as sent for
translation. -/
def appCd4 : App := { appCd with code_sent_for_translation := some "old snapshot" }

/-- A plain unmodified keypress of the character x. -/
def keyPlainX : KeyEvent := KeyEvent.mk (KeyCode.Char 'x') (KeyModifiers.mk false false false false)

/-- A session at the end of the reveal holding a failed translation for the
pending language Go. -/
def appC5 : App :=
  { appBase with state := AppState.Revealing (99 / 100)
                 transition_start := some 12
                 pending_language := some Language.Go
                 pending_translation := some (TranslationEvent.Failure "API error: 500") }

/-- A session mid-submit with no report attached. -/
def appSub : App := { appBase with state := AppState.Submitting (1 / 2) none }

/-- Port of `appSub` with the live execution channel still open. -/
def appSubRx : App := { appSub with output_rx := some 3 }

/-- A sample execution report. -/
def repSample : TestResults :=
  TestResults.mk 1 1 0 [TestResult.mk 1 true "[2,7,11,15], 9" "[0,1]" "[0,1]"]

/-- A session mid-submit with a report attached and progress at the 0.95 cap. -/
def appSubSome : App := { appBase with state := AppState.Submitting (19 / 20) (some repSample) }

/-- A session whose pre-selected next language equals the current one (the
`from == to` translation shortcut). -/
def appC6 : App := { appBase with pending_language := some Language.Python }

/-- A session in the glitch phase. -/
def appTrans : App :=
  { appBase with state := AppState.Transitioning (1 / 2), transition_start := some 12 }

/-- A mouse click event. -/
def mouseSample : MouseEvent := MouseEvent.mk MouseEventKind.Down 5 5

/-- A session holding a live translation job with identity 7. -/
def appJob : App :=
  { appBase with translation_rx := some (TransJob.mk 7 "old code" Language.Python Language.Rust) }

/-- A session with Rust pre-selected as the pending language. -/
def appPend : App := { appBase with pending_language := some Language.Rust }

/-- The translation-related state of a session, bundled. -/
def transState (a : App) : Option TransJob × Option TranslationEvent × Option String :=
  (a.translation_rx, a.pending_translation, a.code_sent_for_translation)


/-! # Theorems -/

section Claims

/-! ## Helper lemmas -/

lemma handle_key_transitioning (a : App) (key : KeyEvent) (now : ℚ) (rnd : Problem)
    (p : ℚ) (h : a.state = .Transitioning p) : a.handle_key key now rnd = a := by
  simp [App.handle_key, h]

lemma handle_key_revealing (a : App) (key : KeyEvent) (now : ℚ) (rnd : Problem)
    (p : ℚ) (h : a.state = .Revealing p) : a.handle_key key now rnd = a := by
  simp [App.handle_key, h]

lemma handle_key_submitting (a : App) (key : KeyEvent) (now : ℚ) (rnd : Problem)
    (p : ℚ) (res : Option TestResults) (h : a.state = .Submitting p res) :
    a.handle_key key now rnd = a := by
  simp [App.handle_key, h]

lemma handle_mouse_not_coding (a : App) (m : MouseEvent) (h : a.state ≠ .Coding) :
    a.handle_mouse m = a := by
  simp [App.handle_mouse, h]

/-- C10: in the glitch, reveal and submit phases every keyboard event leaves
the session untouched; mouse events are processed only while Coding; hence a
key event can change the editor only in the Coding, Countdown or Results
phases. -/
theorem C10_input_ignored_outside_interactive_phases :
    (∀ (a : App) (key : KeyEvent) (now : ℚ) (rnd : Problem) (p : ℚ),
        a.state = .Transitioning p → a.handle_key key now rnd = a) ∧
    (∀ (a : App) (key : KeyEvent) (now : ℚ) (rnd : Problem) (p : ℚ),
        a.state = .Revealing p → a.handle_key key now rnd = a) ∧
    (∀ (a : App) (key : KeyEvent) (now : ℚ) (rnd : Problem) (p : ℚ)
        (res : Option TestResults),
        a.state = .Submitting p res → a.handle_key key now rnd = a) ∧
    (∀ (a : App) (m : MouseEvent), a.state ≠ .Coding → a.handle_mouse m = a) ∧
    (∀ (a : App) (key : KeyEvent) (now : ℚ) (rnd : Problem),
        (a.handle_key key now rnd).editor ≠ a.editor →
        a.state = .Coding ∨ (∃ n, a.state = .Countdown n) ∨
          (∃ r, a.state = .Results r)) := by
  refine ⟨handle_key_transitioning, handle_key_revealing, handle_key_submitting,
          handle_mouse_not_coding, ?_⟩
  intro a key now rnd hne
  rcases hs : a.state with _ | n | p | p | ⟨p, res⟩ | r
  · exact Or.inl rfl
  · exact Or.inr (Or.inl ⟨n, rfl⟩)
  · exact absurd (congrArg App.editor (handle_key_transitioning a key now rnd p hs)) hne
  · exact absurd (congrArg App.editor (handle_key_revealing a key now rnd p hs)) hne
  · exact absurd (congrArg App.editor (handle_key_submitting a key now rnd p res hs)) hne
  · exact Or.inr (Or.inr ⟨r, rfl⟩)

/-- Witness for C10 at a concrete glitch-phase session. -/
theorem C10_witness :
    appTrans.handle_key keyPlainX 0 prTwo = appTrans ∧
    appTrans.handle_mouse mouseSample = appTrans := by
  exact ⟨C10_input_ignored_outside_interactive_phases.1 appTrans keyPlainX 0 prTwo (1 / 2) rfl,
         C10_input_ignored_outside_interactive_phases.2.2.2.1 appTrans mouseSample (by decide)⟩

/-- C5 fails as stated: with a Failed translation pending, `complete_transition`
keeps the text but still switches the active language (here Python to Go). -/
theorem C5_counterexample :
    (appC5.complete_transition 42).editor = appC5.editor ∧
    (appC5.complete_transition 42).current_language ≠ appC5.current_language := by
  exact ⟨by decide, by decide⟩

/-- C5 (amended): when the pending translation event is Failed, the rotation
completes with the editable text unchanged, but the active language is still
switched to the pending language; the phase returns to Coding and the rotation
timer resets. -/
theorem C5_failed_translation_keeps_text_not_language :
    ∀ (a : App) (now : ℚ) (lang : Language) (msg : String),
      a.pending_language = some lang →
      a.pending_translation = some (.Failure msg) →
      (a.complete_transition now).editor = a.editor ∧
      (a.complete_transition now).current_language = lang ∧
      (a.complete_transition now).state = .Coding ∧
      (a.complete_transition now).last_randomize = now ∧
      (a.complete_transition now).pending_translation = none ∧
      (a.complete_transition now).translation_rx = none := by
  intro a now lang msg h1 h2
  simp [App.complete_transition, h1, h2]

/-- Witness for C5 at a concrete failed rotation. -/
theorem C5_witness :
    (appC5.complete_transition 42).editor = appC5.editor ∧
    (appC5.complete_transition 42).current_language = Language.Go ∧
    (appC5.complete_transition 42).state = .Coding ∧
    (appC5.complete_transition 42).last_randomize = 42 ∧
    (appC5.complete_transition 42).pending_translation = none ∧
    (appC5.complete_transition 42).translation_rx = none :=
  C5_failed_translation_keeps_text_not_language appC5 42 Language.Go "API error: 500" rfl rfl

/-- C6: translating with equal source and target languages succeeds
immediately with the input unchanged and without any remote call, both in
`convert_code_sync` (no request issued) and in `start_llm_translation`
(the event is resolved locally; no channel or job is created). -/
theorem C6_same_language_translation_is_local :
    (∀ (remote : Except String GeminiResponse) (code : String) (lang : Language),
        convert_code_sync remote code lang lang = (Except.ok code, false)) ∧
    (∀ a : App, a.pending_language = some a.current_language →
        (a.start_llm_translation).pending_translation =
            some (.Success a.code_text) ∧
        (a.start_llm_translation).translation_rx = none ∧
        (a.start_llm_translation).next_job_id = a.next_job_id ∧
        (a.start_llm_translation).code_sent_for_translation = some a.code_text) := by
  constructor
  · intro remote code lang
    simp [convert_code_sync]
  · intro a h
    simp [App.start_llm_translation, App.code_text, h]

/-- Witness for C6 at a concrete session and conversion. -/
theorem C6_witness :
    convert_code_sync (Except.error "network down") "def f(): pass"
        Language.Rust Language.Rust = (Except.ok "def f(): pass", false) ∧
    (appC6.start_llm_translation).pending_translation =
        some (.Success appC6.code_text) ∧
    (appC6.start_llm_translation).translation_rx = none ∧
    (appC6.start_llm_translation).next_job_id = appC6.next_job_id ∧
    (appC6.start_llm_translation).code_sent_for_translation = some appC6.code_text :=
  ⟨C6_same_language_translation_is_local.1 (Except.error "network down")
      "def f(): pass" Language.Rust,
   (C6_same_language_translation_is_local.2 appC6 rfl).1,
   (C6_same_language_translation_is_local.2 appC6 rfl).2.1,
   (C6_same_language_translation_is_local.2 appC6 rfl).2.2.1,
   (C6_same_language_translation_is_local.2 appC6 rfl).2.2.2⟩

lemma create_error_results_spec (problem : Problem) (err : String) :
    (create_error_results problem err).total = problem.test_cases.length ∧
    (create_error_results problem err).passed = 0 ∧
    (create_error_results problem err).details.length = problem.test_cases.length ∧
    ∀ d ∈ (create_error_results problem err).details,
      d.passed = false ∧ d.actual = err := by
  refine ⟨rfl, rfl, by simp [create_error_results], ?_⟩
  intro d hd
  simp only [create_error_results, List.mem_map] at hd
  obtain ⟨itc, -, rfl⟩ := hd
  exact ⟨rfl, rfl⟩

/-- C8: every execution failure (non-success HTTP status, network error,
response-parse error) yields a synthetic report covering all declared test
cases, with zero passed, every case failed, and the failure reason contained
in every case's actual text. -/
theorem C8_failures_yield_synthetic_report :
    ∀ (problem : Problem) (msg : String) (outcome : PistonOutcome),
      (outcome = .httpError msg ∨ outcome = .networkError msg ∨
        outcome = .parseError msg) →
      (run_tests_on_piston_report problem outcome).total =
          problem.test_cases.length ∧
      (run_tests_on_piston_report problem outcome).passed = 0 ∧
      (run_tests_on_piston_report problem outcome).details.length =
          problem.test_cases.length ∧
      ∀ d ∈ (run_tests_on_piston_report problem outcome).details,
        d.passed = false ∧ msg.data <:+: d.actual.data := by
  intro problem msg outcome houtcome
  have base : ∀ lead : String,
      (create_error_results problem (lead ++ msg)).total = problem.test_cases.length ∧
      (create_error_results problem (lead ++ msg)).passed = 0 ∧
      (create_error_results problem (lead ++ msg)).details.length =
          problem.test_cases.length ∧
      ∀ d ∈ (create_error_results problem (lead ++ msg)).details,
        d.passed = false ∧ msg.data <:+: d.actual.data := by
    intro lead
    obtain ⟨h1, h2, h3, h4⟩ := create_error_results_spec problem (lead ++ msg)
    refine ⟨h1, h2, h3, ?_⟩
    intro d hd
    obtain ⟨hp, ha⟩ := h4 d hd
    refine ⟨hp, ?_⟩
    rw [ha, String.data_append]
    exact (List.suffix_append _ _).isInfix
  rcases houtcome with h | h | h <;> subst h
  · exact base "API Error: "
  · exact base "Network Error: "
  · exact base "Parse Error: "

/-- Witness for C8 at a concrete problem and a simulated network failure. -/
theorem C8_witness :
    (run_tests_on_piston_report prTwo (.networkError "timed out")).total = 2 ∧
    (run_tests_on_piston_report prTwo (.networkError "timed out")).passed = 0 ∧
    (run_tests_on_piston_report prTwo (.networkError "timed out")).details.length = 2 ∧
    ∀ d ∈ (run_tests_on_piston_report prTwo (.networkError "timed out")).details,
      d.passed = false ∧ ("timed out" : String).data <:+: d.actual.data :=
  C8_failures_yield_synthetic_report prTwo "timed out" (.networkError "timed out")
    (Or.inr (Or.inl rfl))

lemma length_filter_map_enumFrom {α β : Type} (f : Nat × α → β) (q : β → Bool)
    (g : Nat → Bool) (hf : ∀ i x, q (f (i, x)) = g i) :
    ∀ (k : Nat) (l : List α),
      (((List.enumFrom k l).map f).filter q).length =
        ((List.range' k l.length).filter g).length := by
  intro k l
  induction l generalizing k with
  | nil => simp
  | cons x xs ih =>
      simp only [List.enumFrom, List.map_cons, List.length_cons, List.range',
        List.filter_cons, hf]
      cases hgk : g k <;> simp [ih]

/-- C7 fails as stated on the reason string: the synthetic all-failed report
carries the reason "Failed to parse test results from output", not the claimed
"failed to parse test results". -/
theorem C7_counterexample :
    (parse_results "oops" prTwo).details.map TestResult.actual =
      ["Failed to parse test results from output",
       "Failed to parse test results from output"] ∧
    ("Failed to parse test results from output" : String) ≠
      "failed to parse test results" := by
  exact ⟨by decide, by decide⟩

/-- C7 (amended): the verifier takes the first line from the end whose trimmed
text starts with the array delimiter; if there is no such line, or that line
does not parse, it returns the synthetic all-failed report with reason
"Failed to parse test results from output"; otherwise declared test case i is
paired with verdict entry i (missing entries default to failed), the passed
count is the number of paired true verdicts, and the spec's two-entry example
yields Report(total 2, passed 1) with the second detail failed. -/
theorem C7_result_verifier :
    (∀ (stdout : String) (problem : Problem), verdictLine stdout = none →
        parse_results stdout problem =
          create_error_results problem "Failed to parse test results from output") ∧
    (∀ (stdout : String) (problem : Problem) (line : String),
        verdictLine stdout = some line → jsonFromStrVec line = none →
        parse_results stdout problem =
          create_error_results problem "Failed to parse test results from output") ∧
    (∀ (stdout : String) (problem : Problem) (line : String) (arr : List Json)
        (i : Nat) (tc0 : TestCase),
        verdictLine stdout = some line → jsonFromStrVec line = some arr →
        problem.test_cases.get? i = some tc0 →
        (parse_results stdout problem).details.get? i =
          some (TestResult.mk (i + 1) (pairedPassed arr i)
            (String.intercalate ", " tc0.input) tc0.expected (pairedActual arr i))) ∧
    (∀ (stdout : String) (problem : Problem) (line : String) (arr : List Json),
        verdictLine stdout = some line → jsonFromStrVec line = some arr →
        (parse_results stdout problem).total = problem.test_cases.length ∧
        (parse_results stdout problem).passed =
          ((List.range problem.test_cases.length).filter (pairedPassed arr)).length) ∧
    parse_results ("junk\n" ++ specLine ++ "\n") prTwo =
      TestResults.mk 2 1 1
        [TestResult.mk 1 true "[2,7,11,15], 9" "[0,1]" "[0,1]",
         TestResult.mk 2 false "[3,2,4], 6" "[1,2]" "[]"] := by
  refine ⟨?_, ?_, ?_, ?_, by decide⟩
  · intro stdout problem h
    unfold verdictLine at h
    simp [parse_results, h]
  · intro stdout problem line h hparse
    unfold verdictLine at h
    simp [parse_results, h, hparse]
  · intro stdout problem line arr i tc0 h hparse htc
    unfold verdictLine at h
    rw [List.get?_eq_getElem?] at htc
    simp [parse_results, h, hparse, htc, pairedPassed, pairedActual]
  · intro stdout problem line arr h hparse
    unfold verdictLine at h
    refine ⟨by simp [parse_results, h, hparse], ?_⟩
    simp only [parse_results, h, hparse]
    rw [List.enum, List.range_eq_range']
    exact length_filter_map_enumFrom _ _ (pairedPassed arr) (fun i x => rfl) 0
      problem.test_cases

/-- Witness for C7: the fallback on stdout with no verdict line, and the
pairing and counts on the spec's concrete verdict line. -/
theorem C7_witness :
    parse_results "oops" prTwo =
      create_error_results prTwo "Failed to parse test results from output" ∧
    (parse_results ("junk\n" ++ specLine ++ "\n") prTwo).details.get? 1 =
      some (TestResult.mk 2 (pairedPassed arrSpec 1) "[3,2,4], 6" "[1,2]"
        (pairedActual arrSpec 1)) ∧
    (parse_results ("junk\n" ++ specLine ++ "\n") prTwo).total = 2 ∧
    (parse_results ("junk\n" ++ specLine ++ "\n") prTwo).passed =
      ((List.range 2).filter (pairedPassed arrSpec)).length :=
  ⟨C7_result_verifier.1 "oops" prTwo rfl,
   C7_result_verifier.2.2.1 ("junk\n" ++ specLine ++ "\n") prTwo specLine arrSpec 1
      (TestCase.mk ["[3,2,4]", "6"] "[1,2]") rfl rfl rfl,
   (C7_result_verifier.2.2.2.1 ("junk\n" ++ specLine ++ "\n") prTwo specLine arrSpec
      rfl rfl).1,
   (C7_result_verifier.2.2.2.1 ("junk\n" ++ specLine ++ "\n") prTwo specLine arrSpec
      rfl rfl).2⟩

lemma tick_state_results (a : App) (now : ℚ) (c : Language) (r : TestResults)
    (hs : a.state = .Results r) : (a.tick now c).state = .Results r := by
  simp [App.tick, hs]

lemma start_llm_translation_state (a : App) :
    (a.start_llm_translation).state = a.state := by
  simp only [App.start_llm_translation]
  rcases h : a.pending_language with _ | t
  · simp [h]
  · simp only [h]
    split_ifs <;> rfl

lemma start_llm_translation_transition_start (a : App) :
    (a.start_llm_translation).transition_start = a.transition_start := by
  simp only [App.start_llm_translation]
  rcases h : a.pending_language with _ | t
  · simp [h]
  · simp only [h]
    split_ifs <;> rfl

lemma start_transition_state (a : App) (now : ℚ) :
    (a.start_transition now).state = .Transitioning 0 := by
  simp [App.start_transition, start_llm_translation_state]

lemma start_transition_transition_start (a : App) (now : ℚ) :
    (a.start_transition now).transition_start = some now := by
  simp [App.start_transition, start_llm_translation_transition_start]

lemma start_transition_translation_rx (a : App) (now : ℚ) (target : Language)
    (hpl : a.pending_language = some target) (hne : ¬ a.current_language = target) :
    (a.start_transition now).translation_rx =
      some (TransJob.mk a.next_job_id a.code_text a.current_language target) := by
  simp [App.start_transition, App.start_llm_translation, App.code_text, hpl, hne]

lemma complete_transition_fields (a : App) (now : ℚ) :
    (a.complete_transition now).state = .Coding ∧
    (a.complete_transition now).last_randomize = now ∧
    (a.complete_transition now).countdown_start = none ∧
    (a.complete_transition now).randomize_interval = a.randomize_interval := by
  simp only [App.complete_transition]
  rcases h : a.pending_language with _ | lang
  · simp
  · rcases h2 : a.pending_translation with _ | ev
    · simp
    · rcases ev with code | msg <;>
        simp [App.set_editor_content_with_cursor]

lemma tick_state_coding (b : App) (now : ℚ) (c : Language) (hs : b.state = .Coding) :
    (b.tick now c).state =
      (if satSub b.randomize_interval 5 ≤ elapsedSince b.last_randomize now ∧
          b.countdown_start = none
       then .Countdown 5 else .Coding) := by
  simp only [App.tick, hs, ge_iff_le]
  split_ifs with h1
  · simp [App.start_countdown]
  · simpa using hs

lemma tick_rec_coding_start (b : App) (now : ℚ) (c : Language) (hs : b.state = .Coding)
    (hcond : satSub b.randomize_interval 5 ≤ elapsedSince b.last_randomize now)
    (hcd : b.countdown_start = none) :
    b.tick now c =
      { b with glitch_frame := (b.glitch_frame + 1) % 10
               countdown_start := some now
               state := .Countdown 5
               pending_language := some (b.current_language.random_except c) } := by
  simp [App.tick, hs, hcd, hcond, App.start_countdown]

lemma tick_state_countdown (b : App) (now : ℚ) (c : Language) (count : Nat)
    (hs : b.state = .Countdown count) :
    (b.tick now c).state =
      (if durationAsSecs (satSub b.randomize_interval
            (elapsedSince b.last_randomize now)) % 256 = 0 ∨
          satSub b.randomize_interval (elapsedSince b.last_randomize now) = 0
       then .Transitioning 0
       else if durationAsSecs (satSub b.randomize_interval
            (elapsedSince b.last_randomize now)) % 256 ≠ count
       then .Countdown (durationAsSecs (satSub b.randomize_interval
            (elapsedSince b.last_randomize now)) % 256)
       else .Countdown count) := by
  simp only [App.tick, hs]
  split_ifs with h1 h2
  · exact start_transition_state _ _
  · rfl
  · simpa using hs

lemma tick_rec_countdown_stay (b : App) (now : ℚ) (c : Language) (count : Nat)
    (hs : b.state = .Countdown count)
    (hcond : ¬ (durationAsSecs (satSub b.randomize_interval
        (elapsedSince b.last_randomize now)) % 256 = 0 ∨
        satSub b.randomize_interval (elapsedSince b.last_randomize now) = 0)) :
    b.tick now c =
      { b with glitch_frame := (b.glitch_frame + 1) % 10
               state := .Countdown (if durationAsSecs (satSub b.randomize_interval
                   (elapsedSince b.last_randomize now)) % 256 ≠ count
                 then durationAsSecs (satSub b.randomize_interval
                   (elapsedSince b.last_randomize now)) % 256
                 else count) } := by
  simp only [App.tick, hs]
  rw [if_neg hcond]
  split_ifs with h2
  · rfl
  · rw [← hs]

lemma tick_state_transitioning (b : App) (now : ℚ) (c : Language) (p : ℚ)
    (hs : b.state = .Transitioning p) :
    (b.tick now c).state =
      (match b.transition_start with
       | none => .Transitioning p
       | some start =>
           if qmin (elapsedSince start now / (3 / 2)) 1 ≥ 1 then .Revealing 0
           else .Transitioning (qmin (elapsedSince start now / (3 / 2)) 1)) := by
  rcases hts : b.transition_start with _ | start
  · simp [App.tick, hs, hts]
  · simp only [App.tick, hs, hts]
    split_ifs with h1
    · simp [App.start_reveal]
    · rfl

lemma tick_rec_transitioning_stay (b : App) (now : ℚ) (c : Language) (p : ℚ)
    (start : ℚ) (hs : b.state = .Transitioning p) (hts : b.transition_start = some start)
    (hlt : ¬ qmin (elapsedSince start now / (3 / 2)) 1 ≥ 1) :
    b.tick now c =
      { b with glitch_frame := (b.glitch_frame + 1) % 10
               state := .Transitioning (qmin (elapsedSince start now / (3 / 2)) 1) } := by
  simp [App.tick, hs, hts, hlt]

lemma tick_rec_transitioning_go (b : App) (now : ℚ) (c : Language) (p : ℚ)
    (start : ℚ) (hs : b.state = .Transitioning p) (hts : b.transition_start = some start)
    (hge : qmin (elapsedSince start now / (3 / 2)) 1 ≥ 1) :
    b.tick now c =
      { b with glitch_frame := (b.glitch_frame + 1) % 10
               transition_start := some now
               state := .Revealing 0 } := by
  simp [App.tick, hs, hts, hge, App.start_reveal]

lemma tick_state_revealing (b : App) (now : ℚ) (c : Language) (p : ℚ)
    (hs : b.state = .Revealing p) :
    (b.tick now c).state =
      (match b.transition_start with
       | none => .Revealing p
       | some start =>
           if qmin (elapsedSince start now / 3) 1 ≥ 1 then
             (if b.translation_ready then .Coding else .Revealing (99 / 100))
           else .Revealing (qmin (elapsedSince start now / 3) 1)) := by
  rcases hts : b.transition_start with _ | start
  · simp [App.tick, hs, hts]
  · simp only [App.tick, hs, hts, App.translation_ready]
    split_ifs with h1 h2
    · exact (complete_transition_fields _ _).1
    · rfl
    · rfl

lemma tick_rec_revealing_stay (b : App) (now : ℚ) (c : Language) (p : ℚ)
    (start : ℚ) (hs : b.state = .Revealing p) (hts : b.transition_start = some start)
    (hlt : ¬ qmin (elapsedSince start now / 3) 1 ≥ 1) :
    b.tick now c =
      { b with glitch_frame := (b.glitch_frame + 1) % 10
               state := .Revealing (qmin (elapsedSince start now / 3) 1) } := by
  simp [App.tick, hs, hts, hlt]

lemma tick_rec_revealing_wait (b : App) (now : ℚ) (c : Language) (p : ℚ)
    (start : ℚ) (hs : b.state = .Revealing p) (hts : b.transition_start = some start)
    (hge : qmin (elapsedSince start now / 3) 1 ≥ 1)
    (hnr : ¬ b.translation_ready = true) :
    b.tick now c =
      { b with glitch_frame := (b.glitch_frame + 1) % 10
               state := .Revealing (99 / 100) } := by
  simp only [App.translation_ready] at hnr
  simp [App.tick, hs, hts, hge, hnr, App.translation_ready]

lemma elapsedSince_self (x : ℚ) : elapsedSince x x = 0 := by
  simp [elapsedSince, qmax]

lemma qmin_zero_div (d : ℚ) : qmin (0 / d) 1 = 0 := by
  simp [qmin]

lemma durationAsSecs_floor (d : ℚ) : durationAsSecs d = (⌊d⌋).toNat := by
  rw [durationAsSecs, Rat.floor_def]

lemma remaining_lemma_appCd :
    satSub appCd.randomize_interval (elapsedSince appCd.last_randomize (21 / 2)) =
      9 / 2 := by
  norm_num [satSub, elapsedSince, qmax, appCd, appBase, App.new]

/-- C2 fails as stated: at 4.5 seconds remaining the countdown displays 4, the
floor of the remaining time, not its ceiling 5. -/
theorem C2_counterexample :
    (appCd.tick (21 / 2) Language.Rust).state = .Countdown 4 ∧
    (⌈satSub appCd.randomize_interval (elapsedSince appCd.last_randomize (21 / 2))⌉ : ℤ)
      = 5 ∧
    (appCd.tick (21 / 2) Language.Rust).state ≠
      .Countdown (⌈satSub appCd.randomize_interval
        (elapsedSince appCd.last_randomize (21 / 2))⌉).toNat := by
  have hceil : (⌈satSub appCd.randomize_interval
      (elapsedSince appCd.last_randomize (21 / 2))⌉ : ℤ) = 5 := by
    rw [remaining_lemma_appCd, Int.ceil_eq_iff] <;> norm_num
  have hfl : durationAsSecs (satSub appCd.randomize_interval
      (elapsedSince appCd.last_randomize (21 / 2))) = 4 := by
    rw [remaining_lemma_appCd, durationAsSecs_floor,
      show ⌊(9 / 2 : ℚ)⌋ = 4 by rw [Int.floor_eq_iff] <;> norm_num]
    rfl
  have hstate : (appCd.tick (21 / 2) Language.Rust).state = .Countdown 4 := by
    rw [tick_state_countdown appCd (21 / 2) Language.Rust 5 rfl, hfl,
      remaining_lemma_appCd]
    norm_num
  refine ⟨hstate, hceil, ?_⟩
  rw [hstate, hceil]
  decide

/-- C2 (amended): after a tick in the Countdown phase the displayed integer
seconds equals the floor (whole seconds) of the remaining time to rotation —
recomputed from the clock each tick, so it cannot drift — and the countdown
ends (the glitch transition starts) exactly when that floor reaches zero. -/
theorem C2_countdown_displays_floor_of_remaining :
    ∀ (a : App) (now : ℚ) (c : Language) (count : Nat),
      a.state = .Countdown count →
      (⌊satSub a.randomize_interval (elapsedSince a.last_randomize now)⌋).toNat < 256 →
      (0 < (⌊satSub a.randomize_interval (elapsedSince a.last_randomize now)⌋).toNat →
        (a.tick now c).state = .Countdown
          (⌊satSub a.randomize_interval (elapsedSince a.last_randomize now)⌋).toNat) ∧
      ((⌊satSub a.randomize_interval (elapsedSince a.last_randomize now)⌋).toNat = 0 →
        (a.tick now c).state = .Transitioning 0) := by
  intro a now c count hs h256
  rw [tick_state_countdown a now c count hs, ← durationAsSecs_floor] at *
  constructor
  · intro hpos
    have hR0 : ¬ satSub a.randomize_interval (elapsedSince a.last_randomize now) = 0 := by
      intro h0
      rw [h0] at hpos
      simp [durationAsSecs] at hpos
    have hmod : durationAsSecs (satSub a.randomize_interval
        (elapsedSince a.last_randomize now)) % 256 =
        durationAsSecs (satSub a.randomize_interval (elapsedSince a.last_randomize now)) :=
      Nat.mod_eq_of_lt h256
    rw [if_neg (by rw [hmod]; push_neg; exact ⟨by omega, hR0⟩)]
    rw [hmod]
    split_ifs with hdc
    · rfl
    · push_neg at hdc
      rw [hdc]
  · intro h0
    rw [if_pos (Or.inl (by rw [Nat.mod_eq_of_lt h256, h0]))]

/-- Witness for C2: at 4.5 seconds remaining the tick displays floor 4.5 = 4. -/
theorem C2_witness :
    (appCd.tick (21 / 2) Language.Rust).state = .Countdown
      (⌊satSub appCd.randomize_interval (elapsedSince appCd.last_randomize (21 / 2))⌋).toNat := by
  have hfl : (⌊satSub appCd.randomize_interval
      (elapsedSince appCd.last_randomize (21 / 2))⌋).toNat = 4 := by
    rw [remaining_lemma_appCd,
      show ⌊(9 / 2 : ℚ)⌋ = 4 by rw [Int.floor_eq_iff] <;> norm_num]
    rfl
  exact (C2_countdown_displays_floor_of_remaining appCd (21 / 2) Language.Rust 5 rfl
    (by rw [hfl]; norm_num)).1 (by rw [hfl]; norm_num)

lemma tick_rec_countdown_go (b : App) (now : ℚ) (c : Language) (count : Nat)
    (hs : b.state = .Countdown count)
    (hcond : durationAsSecs (satSub b.randomize_interval
        (elapsedSince b.last_randomize now)) % 256 = 0 ∨
        satSub b.randomize_interval (elapsedSince b.last_randomize now) = 0) :
    b.tick now c =
      App.start_transition
        { b with glitch_frame := (b.glitch_frame + 1) % 10 } now := by
  simp [App.tick, hs, hcond]

/-- C3 fails as stated: entering the Countdown phase pre-selects the language
but starts no translation job — none is live at countdown entry, and none
after a mid-countdown tick either. -/
theorem C3_counterexample :
    (appBase.tick 10 Language.Rust).state = .Countdown 5 ∧
    (appBase.tick 10 Language.Rust).translation_rx = none ∧
    (appBase.tick 10 Language.Rust).pending_translation = none ∧
    ((appBase.tick 10 Language.Rust).tick (23 / 2) Language.Go).translation_rx = none := by
  have hcond : satSub appBase.randomize_interval 5 ≤
      elapsedSince appBase.last_randomize 10 := by
    norm_num [satSub, elapsedSince, qmax, appBase, App.new]
  have h1 := tick_rec_coding_start appBase 10 Language.Rust rfl hcond rfl
  refine ⟨by rw [h1], by rw [h1]; rfl, by rw [h1]; rfl, ?_⟩
  have hR2 : satSub (appBase.tick 10 Language.Rust).randomize_interval
      (elapsedSince (appBase.tick 10 Language.Rust).last_randomize (23 / 2)) = 7 / 2 := by
    rw [h1]
    norm_num [satSub, elapsedSince, qmax, appBase, App.new]
  have hfl2 : durationAsSecs (7 / 2 : ℚ) = 3 := by
    rw [durationAsSecs_floor, show ⌊(7 / 2 : ℚ)⌋ = 3 by rw [Int.floor_eq_iff] <;> norm_num]
    rfl
  have hstay := tick_rec_countdown_stay (appBase.tick 10 Language.Rust) (23 / 2)
    Language.Go 5 (by rw [h1]) (by rw [hR2, hfl2]; norm_num)
  rw [hstay, h1]
  rfl

/-- C3 (amended): entering Countdown pre-selects the next language (the draw
from all languages except the current one) but starts no translation job; the
`TranslationJob` for the pre-selected language is created when the countdown
reaches zero, at entry to the glitch transition, with the snapshot current at
that moment. -/
theorem C3_translation_starts_at_countdown_end :
    (∀ (a : App) (now : ℚ) (choice : Language),
        a.state = .Coding →
        satSub a.randomize_interval 5 ≤ elapsedSince a.last_randomize now →
        a.countdown_start = none →
        choice ∈ a.current_language.randomExceptCandidates →
        (a.tick now choice).state = .Countdown 5 ∧
        (a.tick now choice).pending_language = some choice ∧
        choice ≠ a.current_language ∧
        (a.tick now choice).translation_rx = a.translation_rx ∧
        (a.tick now choice).pending_translation = a.pending_translation) ∧
    (∀ (a : App) (now : ℚ) (c : Language) (count : Nat) (target : Language),
        a.state = .Countdown count →
        satSub a.randomize_interval (elapsedSince a.last_randomize now) = 0 →
        a.pending_language = some target →
        target ≠ a.current_language →
        (a.tick now c).state = .Transitioning 0 ∧
        (a.tick now c).translation_rx =
          some (TransJob.mk a.next_job_id a.code_text a.current_language target)) := by
  constructor
  · intro a now choice hs hth hcd hmem
    have hne : choice ≠ a.current_language := by
      have hm := List.mem_filter.mp hmem
      simpa using hm.2
    have hnil : Language.randomExceptCandidates a.current_language ≠ [] :=
      List.ne_nil_of_mem hmem
    have hchoice : a.current_language.random_except choice = choice := by
      simp [Language.random_except, hnil]
    have hrec := tick_rec_coding_start a now choice hs hth hcd
    exact ⟨by rw [hrec], by rw [hrec, hchoice], hne, by rw [hrec], by rw [hrec]⟩
  · intro a now c count target hs hrem hpl htne
    have hgo := tick_rec_countdown_go a now c count hs (Or.inr hrem)
    constructor
    · rw [hgo, start_transition_state]
    · rw [hgo,
        start_transition_translation_rx
          { a with glitch_frame := (a.glitch_frame + 1) % 10 } now target hpl
          (fun h => htne h.symm)]
      rfl

/-- Witness for C3: countdown entry at elapsed 10 of 15 pre-selects Rust with
no job; the tick that ends the countdown creates the Rust job. -/
theorem C3_witness :
    (appBase.tick 10 Language.Rust).pending_language = some Language.Rust ∧
    (appBase.tick 10 Language.Rust).translation_rx = appBase.translation_rx ∧
    (appCd.tick 15 Language.Go).state = .Transitioning 0 ∧
    (appCd.tick 15 Language.Go).translation_rx =
      some (TransJob.mk appCd.next_job_id appCd.code_text appCd.current_language
        Language.Rust) := by
  have h1 := C3_translation_starts_at_countdown_end.1 appBase 10 Language.Rust rfl
    (by norm_num [satSub, elapsedSince, qmax, appBase, App.new]) rfl (by decide)
  have h2 := C3_translation_starts_at_countdown_end.2 appCd 15 Language.Go 5
    Language.Rust rfl
    (by norm_num [satSub, elapsedSince, qmax, appCd, appBase, App.new]) rfl (by decide)
  exact ⟨h1.2.1, h1.2.2.2.1, h2.1, h2.2⟩

lemma unindent_transState (a : App) :
    transState (a.unindent_current_line) = transState a := by
  unfold App.unindent_current_line
  split
  · rfl
  · dsimp only
    split_ifs <;> rfl

lemma coding_key_rest_transState (a : App) (key : KeyEvent)
    (hm ia ish : Bool) :
    transState (a.coding_key_rest key hm ia ish) = transState a := by
  simp only [App.coding_key_rest]
  split_ifs <;> first | rfl | exact unindent_transState a

set_option maxHeartbeats 2000000 in
lemma handle_coding_key_transState (a : App) (key : KeyEvent) (rnd : Problem) :
    transState (a.handle_coding_key key rnd) = transState a := by
  unfold App.handle_coding_key
  by_cases h0 : (key.modifiers.superMod || key.modifiers.ctrlMod) = true ∧
      key.modifiers.altMod = false
  case neg => rw [if_neg h0]; exact coding_key_rest_transState _ key _ _ _
  rw [if_pos h0]
  by_cases h1 : key.code = KeyCode.Char 's' ∨ key.code = KeyCode.Char 'S'
  case pos => rw [if_pos h1] <;> try rfl
  rw [if_neg h1]
  by_cases h2 : key.code = KeyCode.Char 'q' ∨ key.code = KeyCode.Char 'Q'
  case pos => rw [if_pos h2] <;> try rfl
  rw [if_neg h2]
  by_cases h3 : key.code = KeyCode.Char 'r' ∨ key.code = KeyCode.Char 'R'
  case pos => rw [if_pos h3] <;> try rfl
  rw [if_neg h3]
  by_cases h4 : key.code = KeyCode.Char 'c' ∨ key.code = KeyCode.Char 'C'
  case pos => rw [if_pos h4] <;> try rfl
  rw [if_neg h4]
  by_cases h5 : key.code = KeyCode.Char 'x' ∨ key.code = KeyCode.Char 'X'
  case pos => rw [if_pos h5] <;> try rfl
  rw [if_neg h5]
  by_cases h6 : key.code = KeyCode.Char 'v' ∨ key.code = KeyCode.Char 'V'
  case pos => rw [if_pos h6] <;> try rfl
  rw [if_neg h6]
  by_cases h7 : key.code = KeyCode.Char 'z' ∨ key.code = KeyCode.Char 'Z'
  case pos => rw [if_pos h7] <;> try rfl
  rw [if_neg h7]
  by_cases h8 : key.code = KeyCode.Char 'y' ∨ key.code = KeyCode.Char 'Y'
  case pos => rw [if_pos h8] <;> try rfl
  rw [if_neg h8]
  by_cases h9 : key.code = KeyCode.Char 'a' ∨ key.code = KeyCode.Char 'A'
  case pos => rw [if_pos h9] <;> try rfl
  rw [if_neg h9]
  by_cases h10 : key.code = KeyCode.Char 'e' ∨ key.code = KeyCode.Char 'E'
  case pos => rw [if_pos h10] <;> try rfl
  rw [if_neg h10]
  by_cases h11 : key.code = KeyCode.Char 'u' ∨ key.code = KeyCode.Char 'U'
  case pos => rw [if_pos h11] <;> try rfl
  rw [if_neg h11]
  by_cases h12 : key.code = KeyCode.Char 'k' ∨ key.code = KeyCode.Char 'K'
  case pos => rw [if_pos h12] <;> try rfl
  rw [if_neg h12]
  by_cases h13 : key.code = KeyCode.Char 'w' ∨ key.code = KeyCode.Char 'W'
  case pos => rw [if_pos h13] <;> try rfl
  rw [if_neg h13]
  by_cases h14 : key.code = KeyCode.Char 'd' ∨ key.code = KeyCode.Char 'D'
  case pos => rw [if_pos h14] <;> try rfl
  rw [if_neg h14]
  by_cases h15 : key.code = KeyCode.Left ∧ key.modifiers.superMod = true
  case pos => rw [if_pos h15] <;> try rfl
  rw [if_neg h15]
  by_cases h16 : key.code = KeyCode.Right ∧ key.modifiers.superMod = true
  case pos => rw [if_pos h16] <;> try rfl
  rw [if_neg h16]
  by_cases h17 : key.code = KeyCode.Up ∧ key.modifiers.superMod = true
  case pos => rw [if_pos h17] <;> try rfl
  rw [if_neg h17]
  by_cases h18 : key.code = KeyCode.Down ∧ key.modifiers.superMod = true
  case pos => rw [if_pos h18] <;> try rfl
  rw [if_neg h18]
  exact coding_key_rest_transState _ key _ _ _

lemma handle_results_key_transState (a : App) (key : KeyEvent) (now : ℚ) :
    transState (a.handle_results_key key now) = transState a := by
  simp only [App.handle_results_key]
  split <;> rfl

/-- C4 fails as stated: editing during the countdown after a snapshot was
recorded as sent does not start any fresh TranslationJob — the edit changes
the editor, yet no job channel exists and the recorded snapshot is untouched. -/
theorem C4_counterexample :
    (appCd4.handle_key keyPlainX 0 prTwo).editor ≠ appCd4.editor ∧
    appCd4.code_sent_for_translation = some "old snapshot" ∧
    (appCd4.handle_key keyPlainX 0 prTwo).translation_rx = none ∧
    (appCd4.handle_key keyPlainX 0 prTwo).code_sent_for_translation =
      some "old snapshot" := by
  exact ⟨by decide, rfl, by decide, by decide⟩

/-- C4 (amended): editing while counting down starts no fresh TranslationJob —
key handling never touches the translation state; the single job starts at
countdown end.  The discard half does hold: a result delivered from any job
other than the one the live receiver belongs to is never applied, and
`start_llm_translation` drops the previous receiver and gives any job it
creates a fresh identity. -/
theorem C4_edit_does_not_supersede :
    (∀ (a : App) (key : KeyEvent) (now : ℚ) (rnd : Problem) (n : Nat),
        a.state = .Countdown n →
        (a.handle_key key now rnd).translation_rx = a.translation_rx ∧
        (a.handle_key key now rnd).pending_translation = a.pending_translation ∧
        (a.handle_key key now rnd).code_sent_for_translation =
          a.code_sent_for_translation) ∧
    (∀ (a : App) (jid : Nat) (ev : TranslationEvent) (job : TransJob),
        a.translation_rx = some job → jid ≠ job.jobId →
        a.poll_translation (some (jid, ev)) = a) ∧
    (∀ (a : App) (job : TransJob),
        (a.start_llm_translation).translation_rx = some job →
        job.jobId = a.next_job_id ∧
        (a.start_llm_translation).next_job_id = a.next_job_id + 1) := by
  refine ⟨?_, ?_, ?_⟩
  · intro a key now rnd n hs
    have h := handle_coding_key_transState a key rnd
    have hk : a.handle_key key now rnd = a.handle_coding_key key rnd := by
      simp [App.handle_key, hs]
    rw [hk]
    simpa [transState, Prod.ext_iff] using h
  · intro a jid ev job hrx hne
    simp [App.poll_translation, hrx, hne]
  · intro a job h
    simp only [App.start_llm_translation] at h ⊢
    rcases hpl : a.pending_language with _ | t
    · simp [hpl] at h
    · simp only [hpl] at h ⊢
      by_cases hc : a.current_language = t
      · simp [hc] at h
      · simp [hc] at h ⊢
        rw [← h]

/-- Witness for C4: a concrete countdown edit, a late delivery from a stale
job, and a fresh job creation. -/
theorem C4_witness :
    (appCd4.handle_key keyPlainX 0 prTwo).translation_rx = appCd4.translation_rx ∧
    appJob.poll_translation (some (3, TranslationEvent.Success "late")) = appJob ∧
    (appPend.start_llm_translation).next_job_id = appPend.next_job_id + 1 := by
  refine ⟨(C4_edit_does_not_supersede.1 appCd4 keyPlainX 0 prTwo 5 rfl).1,
          C4_edit_does_not_supersede.2.1 appJob 3 (TranslationEvent.Success "late")
            (TransJob.mk 7 "old code" Language.Python Language.Rust) rfl (by decide),
          (C4_edit_does_not_supersede.2.2 appPend
            (TransJob.mk 0 appPend.code_text Language.Python Language.Rust) rfl).2⟩

/-- C9 fails as stated: in the Submitting phase progress advances on every
tick regardless of the clock, so two ticks at the same instant differ from
one. -/
theorem C9_counterexample :
    ((appSub.tick 0 Language.Rust).tick 0 Language.Rust).state ≠
      (appSub.tick 0 Language.Rust).state := by
  have k1 : ∀ b : App, b.state = .Submitting (1 / 2) none →
      (b.tick 0 Language.Rust).state = .Submitting (51 / 100) none := by
    intro b hb
    have hA : ¬ ((1 : ℚ) / 2 < 3 / 10) := by norm_num
    have hB : ((1 : ℚ) / 2 < 19 / 20) := by norm_num
    have hC : ¬ ((1 : ℚ) / 2 + 1 / 100 > 19 / 20) := by norm_num
    simp [App.tick, hb, hA, hB, hC]
    norm_num
  have k2 : ∀ b : App, b.state = .Submitting (51 / 100) none →
      (b.tick 0 Language.Rust).state = .Submitting (13 / 25) none := by
    intro b hb
    have hA : ¬ ((51 : ℚ) / 100 < 3 / 10) := by norm_num
    have hB : ((51 : ℚ) / 100 < 19 / 20) := by norm_num
    have hC : ¬ ((51 : ℚ) / 100 + 1 / 100 > 19 / 20) := by norm_num
    simp [App.tick, hb, hA, hB, hC]
    norm_num
  have e1 := k1 appSub rfl
  have e2 := k2 _ e1
  rw [e1, e2]
  simp only [ne_eq, AppState.Submitting.injEq, not_and]
  intro hx
  norm_num at hx

/-- C9 (amended): tick at a fixed instant is idempotent on the phase in the
Countdown, Transitioning, Revealing and Results phases (given the real 15s
rotation interval, i.e. any interval above the 5s countdown lead).  It is not
idempotent in Submitting, where progress advances by a fixed increment per
tick independent of the clock, nor at the instant Coding hands over to
Countdown, where the second tick recomputes the displayed count; the glitch
frame counter advances on every tick. -/
theorem C9_tick_idempotent_outside_submitting :
    ∀ (a : App) (now : ℚ) (c : Language),
      tickIdemPhase a.state = true → 5 < a.randomize_interval →
      ((a.tick now c).tick now c).state = (a.tick now c).state := by
  intro a now c hphase h5
  rcases hs : a.state with _ | count | p | p | ⟨p, res⟩ | r
  · rw [hs] at hphase; simp [tickIdemPhase] at hphase
  · -- Countdown
    by_cases hc0 : durationAsSecs (satSub a.randomize_interval
        (elapsedSince a.last_randomize now)) % 256 = 0 ∨
        satSub a.randomize_interval (elapsedSince a.last_randomize now) = 0
    · have hgo := tick_rec_countdown_go a now c count hs hc0
      have hst : (a.tick now c).state = .Transitioning 0 := by
        rw [hgo, start_transition_state]
      have hts : (a.tick now c).transition_start = some now := by
        rw [hgo, start_transition_transition_start]
      rw [tick_state_transitioning _ now c 0 hst, hts, hst]
      norm_num [elapsedSince_self, qmin_zero_div, qmin]
    · have hstay := tick_rec_countdown_stay a now c count hs hc0
      have hfields : satSub (a.tick now c).randomize_interval
          (elapsedSince (a.tick now c).last_randomize now) =
          satSub a.randomize_interval (elapsedSince a.last_randomize now) := by
        rw [hstay]
      by_cases hdc : durationAsSecs (satSub a.randomize_interval
          (elapsedSince a.last_randomize now)) % 256 ≠ count
      · have hstate : (a.tick now c).state = .Countdown (durationAsSecs
            (satSub a.randomize_interval (elapsedSince a.last_randomize now)) % 256) := by
          rw [hstay]; simp [hdc]
        rw [tick_state_countdown _ now c _ hstate, hfields, if_neg hc0, hstate]
        simp
      · push_neg at hdc
        have hstate : (a.tick now c).state = .Countdown count := by
          rw [hstay]; simp [hdc]
        rw [tick_state_countdown _ now c _ hstate, hfields, if_neg hc0, hstate]
        simp [hdc]
  · -- Transitioning
    rcases hts : a.transition_start with _ | start
    · have h1 : a.tick now c = { a with glitch_frame := (a.glitch_frame + 1) % 10 } := by
        simp [App.tick, hs, hts]
      have hstate : (a.tick now c).state = .Transitioning p := by rw [h1]; exact hs
      have hts2 : (a.tick now c).transition_start = none := by rw [h1]; exact hts
      rw [tick_state_transitioning _ now c p hstate, hts2, hstate]
    · by_cases hge : qmin (elapsedSince start now / (3 / 2)) 1 ≥ 1
      · have hgo := tick_rec_transitioning_go a now c p start hs hts hge
        have hstate : (a.tick now c).state = .Revealing 0 := by rw [hgo]; try rfl
        have hts2 : (a.tick now c).transition_start = some now := by rw [hgo]; try rfl
        have hready2 : (a.tick now c).translation_ready = a.translation_ready := by
          rw [hgo]; rfl
        rw [tick_state_revealing _ now c 0 hstate, hts2, hstate]
        norm_num [elapsedSince_self, qmin_zero_div, qmin]
      · have hstay := tick_rec_transitioning_stay a now c p start hs hts hge
        have hstate : (a.tick now c).state =
            .Transitioning (qmin (elapsedSince start now / (3 / 2)) 1) := by
          rw [hstay]; try rfl
        have hts2 : (a.tick now c).transition_start = some start := by
          rw [hstay]; exact hts
        rw [tick_state_transitioning _ now c _ hstate, hts2, hstate]
        simp [hge]
  · -- Revealing
    rcases hts : a.transition_start with _ | start
    · have h1 : a.tick now c = { a with glitch_frame := (a.glitch_frame + 1) % 10 } := by
        simp [App.tick, hs, hts]
      have hstate : (a.tick now c).state = .Revealing p := by rw [h1]; exact hs
      have hts2 : (a.tick now c).transition_start = none := by rw [h1]; exact hts
      rw [tick_state_revealing _ now c p hstate, hts2, hstate]
    · by_cases hge : qmin (elapsedSince start now / 3) 1 ≥ 1
      · by_cases hr : a.translation_ready = true
        · have hr2 : a.pending_translation.isSome = true := by
            simpa [App.translation_ready] using hr
          have h1 : a.tick now c = App.complete_transition
              { a with glitch_frame := (a.glitch_frame + 1) % 10 } now := by
            simp [App.tick, hs, hts, hge, App.translation_ready, hr2]
          obtain ⟨hcs, hlr, hcd, hri⟩ := complete_transition_fields
            { a with glitch_frame := (a.glitch_frame + 1) % 10 } now
          have hstate : (a.tick now c).state = .Coding := by rw [h1]; exact hcs
          have hint : (a.tick now c).randomize_interval = a.randomize_interval := by
            rw [h1]; exact hri
          have hlr2 : (a.tick now c).last_randomize = now := by rw [h1]; exact hlr
          rw [tick_state_coding _ now c hstate, hint, hlr2, elapsedSince_self, hstate]
          have hpos : ¬ (satSub a.randomize_interval 5 ≤ 0) := by
            simp only [satSub, qmax]
            split_ifs with hcond <;> [linarith; linarith]
          rw [if_neg (fun hand => hpos hand.1)]
        · have hwait := tick_rec_revealing_wait a now c p start hs hts hge hr
          have hstate : (a.tick now c).state = .Revealing (99 / 100) := by
            rw [hwait]; try rfl
          have hts2 : (a.tick now c).transition_start = some start := by
            rw [hwait]; exact hts
          have hready2 : (a.tick now c).translation_ready = a.translation_ready := by
            rw [hwait]; rfl
          rw [tick_state_revealing _ now c _ hstate, hts2, hstate]
          simp [hge, hready2, hr]
      · have hstay := tick_rec_revealing_stay a now c p start hs hts hge
        have hstate : (a.tick now c).state =
            .Revealing (qmin (elapsedSince start now / 3) 1) := by
          rw [hstay]; try rfl
        have hts2 : (a.tick now c).transition_start = some start := by
          rw [hstay]; exact hts
        rw [tick_state_revealing _ now c _ hstate, hts2, hstate]
        simp [hge]
  · rw [hs] at hphase; simp [tickIdemPhase] at hphase
  · have h1 : (a.tick now c).state = .Results r := tick_state_results a now c r hs
    rw [tick_state_results _ now c r h1, h1]

/-- Witness for C9 at a concrete mid-countdown session. -/
theorem C9_witness :
    ((appCd.tick (21 / 2) Language.Rust).tick (21 / 2) Language.Rust).state =
      (appCd.tick (21 / 2) Language.Rust).state :=
  C9_tick_idempotent_outside_submitting appCd (21 / 2) Language.Rust (by decide)
    (by norm_num [appCd, appBase, App.new])

lemma capped_tick (a : App) (now : ℚ) (c : Language)
    (h : cappedNoReport a.state = true) :
    cappedNoReport ((a.tick now c).state) = true := by
  rcases hs : a.state with _ | n | p | p | ⟨p, res⟩ | r
  · rw [hs] at h; simp [cappedNoReport] at h
  · rw [hs] at h; simp [cappedNoReport] at h
  · rw [hs] at h; simp [cappedNoReport] at h
  · rw [hs] at h; simp [cappedNoReport] at h
  · rcases res with _ | r2
    · have hp : p ≤ 19 / 20 := by
        rw [hs] at h; simpa [cappedNoReport, decide_eq_true_eq] using h
      simp only [App.tick, hs]
      simp [cappedNoReport, decide_eq_true_eq]
      split_ifs <;> linarith
    · rw [hs] at h; simp [cappedNoReport] at h
  · rw [hs] at h; simp [cappedNoReport] at h

lemma capped_tickSeq : ∀ (ts : List (ℚ × Language)) (a : App),
    cappedNoReport a.state = true →
    cappedNoReport ((tickSeq a ts).state) = true := by
  intro ts
  induction ts with
  | nil => intro a h; exact h
  | cons t ts ih => intro a h; exact ih _ (capped_tick a t.1 t.2 h)

/-- C1: while no report is attached, submit progress stays capped at 0.95
through every sequence of ticks; attaching a report via the Finished execution
event lifts progress to at least 0.95, and from there two further ticks reach
1.0 and hand the attached report to the Results phase. -/
theorem C1_submitting_backpressure :
    (∀ (a : App) (ts : List (ℚ × Language)),
        cappedNoReport a.state = true →
        cappedNoReport ((tickSeq a ts).state) = true) ∧
    (∀ (a : App) (p : ℚ) (res0 : Option TestResults) (r : TestResults) (jid : Nat),
        a.state = .Submitting p res0 → a.output_rx = some jid →
        (a.poll_execution [.Finished r]).state =
          .Submitting (qmax p (19 / 20)) (some r) ∧
        19 / 20 ≤ qmax p (19 / 20)) ∧
    (∀ (a : App) (p : ℚ) (r : TestResults) (n1 n2 : ℚ) (c1 c2 : Language),
        a.state = .Submitting p (some r) → 19 / 20 ≤ p →
        ((a.tick n1 c1).tick n2 c2).state = .Results r) := by
  refine ⟨fun a ts h => capped_tickSeq ts a h, ?_, ?_⟩
  · intro a p res0 r jid hs hrx
    constructor
    · simp [App.poll_execution, hrx, App.process_execution_event, hs]
    · simp only [qmax]; split_ifs <;> linarith
  · intro a p r n1 n2 c1 c2 hs hp
    have h3 : ¬ p < 3 / 10 := by linarith
    by_cases hge : 1 ≤ p + 7 / 200
    · have h1 : (a.tick n1 c1).state = .Results r := by
        simp [App.tick, hs, h3, hge, apply_ite App.state]
      exact tick_state_results _ n2 c2 r h1
    · have h1 : (a.tick n1 c1).state = .Submitting (p + 7 / 200) (some r) := by
        simp [App.tick, hs, h3, hge, apply_ite App.state]
      have h3b : ¬ p + 7 / 200 < 3 / 10 := by linarith
      have hge2 : 1 ≤ p + 7 / 200 + 7 / 200 := by linarith
      have h2 : ∀ b : App, b.state = .Submitting (p + 7 / 200) (some r) →
          (b.tick n2 c2).state = .Results r := by
        intro b hb
        simp [App.tick, hb, h3b, hge2, apply_ite App.state]
      exact h2 _ h1

/-- Witness for C1 at concrete mid-submit sessions. -/
theorem C1_witness :
    cappedNoReport ((tickSeq appSub [(0, Language.Rust), (0, Language.Go)]).state) = true ∧
    (appSubRx.poll_execution [.Finished repSample]).state =
      .Submitting (qmax (1 / 2) (19 / 20)) (some repSample) ∧
    ((appSubSome.tick 0 Language.Rust).tick 0 Language.Go).state = .Results repSample :=
  ⟨C1_submitting_backpressure.1 appSub [(0, Language.Rust), (0, Language.Go)]
      (by rw [show appSub.state = AppState.Submitting (1 / 2) none from rfl]
          simp only [cappedNoReport, decide_eq_true_eq]
          norm_num),
   (C1_submitting_backpressure.2.1 appSubRx (1 / 2) none repSample 3 rfl rfl).1,
   C1_submitting_backpressure.2.2 appSubSome (19 / 20) repSample 0 0
      Language.Rust Language.Go rfl le_rfl⟩

end Claims

end Babel
